import Mathlib

/-!
Shallow embedding of the MarlinX2 motion planner (src/Marlin/planner.cpp) and
verification of the specification claims about it.

Modelling conventions.

* C float/double arithmetic is modelled by exact rational arithmetic over ℚ.
* The libm sqrt function is threaded through every definition that calls it as
  an explicit parameter sqrtf : ℚ → ℚ.  Theorems whose truth depends on the
  value of a square root carry pointwise hypotheses pinning sqrtf at exactly
  the arguments at which the source calls it.
* Machine integers (long, unsigned long, int32_t, uint8_t) are modelled as ℤ
  or ℕ.  All quantities the source keeps in unsigned variables are
  nonnegative under the hypotheses used in the theorems below and stay far
  below the wrap bounds, so integer wrap-around is not modelled; C integer
  truncations that do occur on the modelled paths (uint long *= float,
  the steps_e scaling divide) are modelled explicitly with floor and integer
  division.
* The embedded build configuration is the multi-extruder one (EXTRUDERS > 1)
  with the optional features C_COMPENSATION, SLOWDOWN, XY_FREQUENCY_LIMIT,
  PREVENT_DANGEROUS_EXTRUDE, AUTOTEMP, FAN_KICKSTART_TIME, FAN_SOFT_PWM and
  the follow-me fan coupling disabled, and PER_EXTRUDER_FANS enabled, which
  is the scope described by the specification.
* Ring-buffer walks in the source are while-loops that visit at most
  BLOCK_BUFFER_SIZE slots before reaching their sentinel index; they are
  embedded with an explicit fuel argument equal to BLOCK_BUFFER_SIZE, which
  over-approximates every reachable iteration count.
* External collaborators (st_wake_up, heater/LCD/inactivity ticks, motor
  enable and disable pins, the serial port) do not read or write planner
  state and are omitted; check_axes_activity returns the activity counts and
  the per-extruder fan PWM values it would write out.
* The full-buffer busy-wait at the top of plan_buffer_line spins until the
  stepper interrupt frees a slot.  In this sequential model it is embedded
  as returning the state unchanged, and every theorem about insertions
  carries the corresponding not-full precondition.
-/

/-- Modelled from the spec: BLOCK_BUFFER_SIZE is defined in a header that is
not part of src/; the spec requires a power of two and its end-to-end
scenarios use 16.  The literal 16 (and the mask 15) is used throughout. -/
def BLOCK_BUFFER_SIZE : ℕ := 16

/-- Modelled from the spec: DROP_SEGMENTS (source name dropsegments) is defined
in a header that is not part of src/; the spec boundary scenarios use 5. -/
def dropsegments : ℤ := 5

/-- C lround: round to nearest integer, halfway cases away from zero. -/
def lround (q : ℚ) : ℤ := if 0 ≤ q then ⌊q + 1/2⌋ else -⌊-q + 1/2⌋

/-- Source next_block_index: increment and wrap at BLOCK_BUFFER_SIZE. -/
def next_block_index (i : ℕ) : ℕ := if i + 1 = 16 then 0 else i + 1

/-- Source prev_block_index: decrement, wrapping from 0 to BLOCK_BUFFER_SIZE-1. -/
def prev_block_index (i : ℕ) : ℕ := if i = 0 then 15 else i - 1

/-- The block_t record (planner.h is not in src/, but every field below is the
one planner.cpp reads and writes; the C_COMPENSATION advance fields are
compiled out).  Step counts and rates are machine integers in the source and
are modelled as ℤ; speeds, distances and accelerations are floats and are
modelled as ℚ. -/
structure Block where
  steps_x : ℤ
  steps_y : ℤ
  steps_z : ℤ
  steps_e : ℤ
  step_event_count : ℤ
  direction_bits : ℕ
  fan_speed : ℕ
  active_extruder : ℕ
  travel : Bool
  retract : Bool
  restore : Bool
  millimeters : ℚ
  nominal_speed : ℚ
  nominal_rate : ℤ
  entry_speed : ℚ
  max_entry_speed : ℚ
  acceleration_st : ℤ
  acceleration : ℚ
  acceleration_rate : ℤ
  nominal_length_flag : Bool
  recalculate_flag : Bool
  busy : Bool
  initial_rate : ℤ
  final_rate : ℤ
  accelerate_until : ℤ
  decelerate_after : ℤ
  deriving DecidableEq, Repr

/-- The module-level configuration globals of planner.cpp (all runtime mutable
by the dispatcher, constant during one planner call).  Per-extruder arrays are
functions from the extruder index. -/
structure Config where
  axis_steps_per_unit_x : ℚ
  axis_steps_per_unit_y : ℚ
  axis_steps_per_unit_z : ℚ
  axis_steps_per_unit_e : ℕ → ℚ
  max_feedrate_x : ℚ
  max_feedrate_y : ℚ
  max_feedrate_z : ℚ
  max_feedrate_e : ℕ → ℚ
  max_acceleration_units_per_sq_second_x : ℤ
  max_acceleration_units_per_sq_second_y : ℤ
  max_acceleration_units_per_sq_second_z : ℤ
  max_acceleration_units_per_sq_second_e : ℕ → ℤ
  acceleration : ℚ
  retract_acceleration : ℕ → ℚ
  max_xy_jerk : ℚ
  max_z_jerk : ℚ
  max_e_jerk : ℕ → ℚ
  minimumfeedrate : ℚ
  mintravelfeedrate : ℚ
  extrudemultiply : ℤ
  fanSpeed : ℕ → ℕ

/-- The ring buffer storage: BLOCK_BUFFER_SIZE slots. -/
abbrev Buf := Fin 16 → Block

/-- Read a buffer slot; indices are reduced mod BLOCK_BUFFER_SIZE exactly as
the source masks them with (BLOCK_BUFFER_SIZE - 1). -/
def bget (buf : Buf) (i : ℕ) : Block := buf ⟨i % 16, Nat.mod_lt i (by norm_num)⟩

/-- Write a buffer slot (same masking as bget). -/
def bset (buf : Buf) (i : ℕ) (b : Block) : Buf :=
  Function.update buf ⟨i % 16, Nat.mod_lt i (by norm_num)⟩ b

/-- The mutable planner state of planner.cpp: the ring buffer with its head
and tail indices, the axis position register (steps), the junction memory,
and last_extruder. -/
structure PState where
  blocks : Buf
  block_buffer_head : ℕ
  block_buffer_tail : ℕ
  position_x : ℤ
  position_y : ℤ
  position_z : ℤ
  position_e : ℤ
  previous_speed_x : ℚ
  previous_speed_y : ℚ
  previous_speed_z : ℚ
  previous_speed_e : ℚ
  previous_nominal_speed : ℚ
  last_extruder : ℕ

/-- Source movesplanned (planner.cpp line 1037): queue depth. -/
def movesplanned (st : PState) : ℕ :=
  (st.block_buffer_head + 16 - st.block_buffer_tail) % 16

/-- Modelled from the spec: num_blocks_queued is declared in planner.h (not
under src/); the spec defines the queue depth as (head - tail) mod capacity,
the same value movesplanned computes. -/
def num_blocks_queued (st : PState) : ℕ := movesplanned st

/-- Source estimate_acceleration_distance (lines 138-147). -/
def estimate_acceleration_distance (initial_rate target_rate acceleration : ℚ) : ℚ :=
  if acceleration ≠ 0 then
    (target_rate * target_rate - initial_rate * initial_rate) / (2 * acceleration)
  else 0

/-- Source intersection_distance (lines 154-163). -/
def intersection_distance (initial_rate final_rate acceleration distance : ℚ) : ℚ :=
  if acceleration ≠ 0 then
    (2 * acceleration * distance - initial_rate * initial_rate + final_rate * final_rate) /
      (4 * acceleration)
  else 0

/-- Source max_allowable_speed (lines 167-169). -/
def max_allowable_speed (sqrtf : ℚ → ℚ) (acceleration target_velocity distance : ℚ) : ℚ :=
  sqrtf (target_velocity * target_velocity - 2 * acceleration * distance)

/-- Source calculate_trapezoid_for_block (lines 217-288), C_COMPENSATION
compiled out.  Note two things the source really does: the local initial_rate
is clamped only from below (only final_rate gets the upper clamp to the
nominal rate), and accelerate_steps and decelerate_steps are computed from
the block's previously stored initial_rate and final_rate fields, not from
the locals just computed.  The local target_rate recomputation inside the
triangular branch (line 251) is dead in this configuration, because after
that point target_rate is only read by C_COMPENSATION code, so it is
omitted.  The critical-section commit of the four profile fields is a single
functional update guarded by the busy flag. -/
def calculate_trapezoid_for_block (block : Block) (entry_factor exit_factor : ℚ) : Block :=
  let initial_rate : ℤ := ⌈(block.nominal_rate : ℚ) * entry_factor⌉
  let final_rate : ℤ := ⌈(block.nominal_rate : ℚ) * exit_factor⌉
  let target_rate : ℤ := block.nominal_rate
  let initial_rate := if initial_rate < 120 then 120 else initial_rate
  let final_rate := if final_rate < 120 then 120 else final_rate
  let final_rate := if final_rate > target_rate then target_rate else final_rate
  let acceleration : ℤ := block.acceleration_st
  let accelerate_steps : ℤ :=
    ⌈estimate_acceleration_distance (block.initial_rate : ℚ) (target_rate : ℚ)
        (acceleration : ℚ)⌉
  let decelerate_steps : ℤ :=
    ⌊estimate_acceleration_distance (target_rate : ℚ) (block.final_rate : ℚ)
        (-(acceleration : ℚ))⌋
  let plateau_steps : ℤ := block.step_event_count - accelerate_steps - decelerate_steps
  let accelerate_steps :=
    if plateau_steps < 0 then
      let a : ℤ :=
        ⌈intersection_distance (block.initial_rate : ℚ) (block.final_rate : ℚ)
            (acceleration : ℚ) (block.step_event_count : ℚ)⌉
      let a := max a 0
      min a block.step_event_count
    else accelerate_steps
  let plateau_steps := if plateau_steps < 0 then 0 else plateau_steps
  if block.busy = false then
    { block with
      accelerate_until := accelerate_steps
      decelerate_after := accelerate_steps + plateau_steps
      initial_rate := initial_rate
      final_rate := final_rate }
  else block

/-- Source planner_reverse_pass_kernel (lines 292-317), acting on buffer
slots.  cur and nxt are the current and next entries of the sliding window
(the NULL pointer is modelled as none); the previous entry is never read by
the source kernel and is not passed. -/
def planner_reverse_pass_kernel (sqrtf : ℚ → ℚ) (buf : Buf) (cur nxt : Option ℕ) : Buf :=
  match cur, nxt with
  | some c, some n =>
    let current := bget buf c
    let next := bget buf n
    if current.entry_speed ≠ current.max_entry_speed then
      let entry :=
        if current.nominal_length_flag = false ∧ current.max_entry_speed > next.entry_speed then
          min current.max_entry_speed
            (max_allowable_speed sqrtf (-current.acceleration) next.entry_speed
              current.millimeters)
        else current.max_entry_speed
      bset buf c { current with entry_speed := entry, recalculate_flag := true }
    else buf
  | _, _ => buf

/-- The while-loop of planner_reverse_pass (lines 333-339).  idx is the live
block_index, b0 and b1 are the window entries block[0] and block[1] carried
between iterations (block[2] of the next iteration is the present b1).  The
fuel is BLOCK_BUFFER_SIZE: the loop decrements idx cyclically and reaches the
tail sentinel in at most 15 steps. -/
def reverse_pass_loop (sqrtf : ℚ → ℚ) (tailIdx : ℕ) :
    ℕ → ℕ → Option ℕ → Option ℕ → Buf → Buf
  | 0, _, _, _, buf => buf
  | fuel + 1, idx, b0, b1, buf =>
    if idx = tailIdx then buf
    else
      reverse_pass_loop sqrtf tailIdx fuel (prev_block_index idx)
        (some (prev_block_index idx)) b0 (planner_reverse_pass_kernel sqrtf buf b0 b1)

/-- Source planner_reverse_pass (lines 321-341).  The interrupt-safe local
copy of block_buffer_tail is the sequential read of the field.  The uint8
index arithmetic (head - tail + BLOCK_BUFFER_SIZE) & (BLOCK_BUFFER_SIZE-1)
and (head - 3) & (BLOCK_BUFFER_SIZE-1) equals the mod-16 expressions below
whenever head and tail are below 16, which the source maintains. -/
def planner_reverse_pass (sqrtf : ℚ → ℚ) (st : PState) : PState :=
  if (st.block_buffer_head + 16 - st.block_buffer_tail) % 16 > 3 then
    { st with
      blocks :=
        reverse_pass_loop sqrtf st.block_buffer_tail 16
          ((st.block_buffer_head + 16 - 3) % 16) none none st.blocks }
  else st

/-- Source planner_forward_pass_kernel (lines 344-365): prev and cur are the
window entries block[0] and block[1] of the call; block[2] is never read. -/
def planner_forward_pass_kernel (sqrtf : ℚ → ℚ) (buf : Buf) (prev cur : Option ℕ) : Buf :=
  match prev, cur with
  | some p, some c =>
    let previous := bget buf p
    let current := bget buf c
    if previous.nominal_length_flag = false then
      if previous.entry_speed < current.entry_speed then
        let entry_speed :=
          min current.entry_speed
            (max_allowable_speed sqrtf (-previous.acceleration) previous.entry_speed
              previous.millimeters)
        if current.entry_speed ≠ entry_speed then
          bset buf c { current with entry_speed := entry_speed, recalculate_flag := true }
        else buf
      else buf
    else buf
  | _, _ => buf

/-- The while-loop of planner_forward_pass (lines 374-380) followed by the
trailing kernel call (line 381).  b1 and b2 carry the window entries block[1]
and block[2]; each iteration calls the kernel on (block[0], block[1]) which
are the carried (b1, b2) before the new fetch enters the window. -/
def forward_pass_loop (sqrtf : ℚ → ℚ) (headIdx : ℕ) :
    ℕ → ℕ → Option ℕ → Option ℕ → Buf → Buf
  | 0, _, _, _, buf => buf
  | fuel + 1, idx, b1, b2, buf =>
    if idx = headIdx then planner_forward_pass_kernel sqrtf buf b1 b2
    else
      let buf2 := planner_forward_pass_kernel sqrtf buf b1 b2
      forward_pass_loop sqrtf headIdx fuel (next_block_index idx) b2 (some idx) buf2

/-- Source planner_forward_pass (lines 369-382). -/
def planner_forward_pass (sqrtf : ℚ → ℚ) (st : PState) : PState :=
  { st with
    blocks :=
      forward_pass_loop sqrtf st.block_buffer_head 16 st.block_buffer_tail none none
        st.blocks }

/-- The while-loop of planner_recalculate_trapezoids (lines 423-447) plus the
trailing newest-block resolution (lines 449-463).  nxt carries the window
entry next (the index fetched on the previous iteration); on each iteration
it becomes current and the new fetch is next, matching the source shifts.
mps models MINIMUM_PLANNER_SPEED, which is defined outside src/. -/
def recalc_trapezoids_loop (mps : ℚ) (headIdx : ℕ) : ℕ → ℕ → Option ℕ → Buf → Buf
  | 0, _, _, buf => buf
  | fuel + 1, idx, nxt, buf =>
    if idx = headIdx then
      match nxt with
      | some n =>
        let b := bget buf n
        let b2 :=
          calculate_trapezoid_for_block b (b.entry_speed / b.nominal_speed)
            (mps / b.nominal_speed)
        bset buf n { b2 with recalculate_flag := false }
      | none => buf
    else
      match nxt with
      | some c =>
        let cur := bget buf c
        let nb := bget buf idx
        let buf2 :=
          if cur.recalculate_flag = true ∨ nb.recalculate_flag = true then
            let c2 :=
              calculate_trapezoid_for_block cur (cur.entry_speed / cur.nominal_speed)
                (nb.entry_speed / cur.nominal_speed)
            bset buf c { c2 with recalculate_flag := false }
          else buf
        recalc_trapezoids_loop mps headIdx fuel (next_block_index idx) (some idx) buf2
      | none => recalc_trapezoids_loop mps headIdx fuel (next_block_index idx) (some idx) buf

/-- Source planner_recalculate_trapezoids (lines 417-464). -/
def planner_recalculate_trapezoids (mps : ℚ) (st : PState) : PState :=
  { st with
    blocks :=
      recalc_trapezoids_loop mps st.block_buffer_head 16 st.block_buffer_tail none
        st.blocks }

/-- Source planner_recalculate (lines 483-487). -/
def planner_recalculate (sqrtf : ℚ → ℚ) (mps : ℚ) (st : PState) : PState :=
  planner_recalculate_trapezoids mps (planner_forward_pass sqrtf (planner_reverse_pass sqrtf st))

/-- Target position quantization (plan_buffer_line lines 664-668), X axis. -/
def pbl_target_x (cfg : Config) (x : ℚ) : ℤ := lround (x * cfg.axis_steps_per_unit_x)

/-- Target position quantization, Y axis. -/
def pbl_target_y (cfg : Config) (y : ℚ) : ℤ := lround (y * cfg.axis_steps_per_unit_y)

/-- Target position quantization, Z axis. -/
def pbl_target_z (cfg : Config) (z : ℚ) : ℤ := lround (z * cfg.axis_steps_per_unit_z)

/-- Target position quantization, E axis with the active extruder's
steps-per-mm. -/
def pbl_target_e (cfg : Config) (e : ℚ) (extruder : ℕ) : ℤ :=
  lround (e * cfg.axis_steps_per_unit_e extruder)

/-- The extruder-change rescale of position[E] (lines 672-679): the value the
global position[E_AXIS] holds after the EXTRUDERS > 1 conditional block. -/
def pbl_pos_e (cfg : Config) (st : PState) (extruder : ℕ) : ℤ :=
  if st.last_extruder ≠ extruder ∧
      cfg.axis_steps_per_unit_e extruder ≠ cfg.axis_steps_per_unit_e st.last_extruder then
    lround ((st.position_e : ℚ) *
      (cfg.axis_steps_per_unit_e extruder / cfg.axis_steps_per_unit_e st.last_extruder))
  else st.position_e

/-- Step delta of the X axis (line 710). -/
def pbl_steps_x (cfg : Config) (st : PState) (x : ℚ) : ℤ :=
  |pbl_target_x cfg x - st.position_x|

/-- Step delta of the Y axis (line 711). -/
def pbl_steps_y (cfg : Config) (st : PState) (y : ℚ) : ℤ :=
  |pbl_target_y cfg y - st.position_y|

/-- Step delta of the Z axis (line 712). -/
def pbl_steps_z (cfg : Config) (st : PState) (z : ℚ) : ℤ :=
  |pbl_target_z cfg z - st.position_z|

/-- Step delta of the E axis scaled by the extrude multiplier with the
source's integer multiply-then-divide (lines 713-715). -/
def pbl_steps_e (cfg : Config) (st : PState) (e : ℚ) (extruder : ℕ) : ℤ :=
  |pbl_target_e cfg e extruder - pbl_pos_e cfg st extruder| * cfg.extrudemultiply / 100

/-- step_event_count (line 716). -/
def pbl_sec (cfg : Config) (st : PState) (x y z e : ℚ) (extruder : ℕ) : ℤ :=
  max (pbl_steps_x cfg st x)
    (max (pbl_steps_y cfg st y) (max (pbl_steps_z cfg st z) (pbl_steps_e cfg st e extruder)))

/-- The partial writes to buffer[head] that happen before the drop check
(lines 707-716): busy cleared, step deltas, step_event_count. -/
def pbl_scratch_block (cfg : Config) (st : PState) (x y z e : ℚ) (extruder : ℕ) : Block :=
  { bget st.blocks st.block_buffer_head with
    busy := false
    steps_x := pbl_steps_x cfg st x
    steps_y := pbl_steps_y cfg st y
    steps_z := pbl_steps_z cfg st z
    steps_e := pbl_steps_e cfg st e extruder
    step_event_count := pbl_sec cfg st x y z e extruder }

/-- Direction bit mask (lines 727-743): bit i set when the delta of axis i is
negative. -/
def pbl_direction_bits (cfg : Config) (st : PState) (x y z e : ℚ) (extruder : ℕ) : ℕ :=
  (if pbl_target_x cfg x < st.position_x then 1 else 0) +
  (if pbl_target_y cfg y < st.position_y then 2 else 0) +
  (if pbl_target_z cfg z < st.position_z then 4 else 0) +
  (if pbl_target_e cfg e extruder < pbl_pos_e cfg st extruder then 8 else 0)

/-- The feed rate after the per-kind floor (lines 766-775). -/
def pbl_feed (cfg : Config) (st : PState) (e : ℚ) (extruder : ℕ) (feed_rate : ℚ) : ℚ :=
  if pbl_steps_e cfg st e extruder = 0 then
    if feed_rate < cfg.mintravelfeedrate then cfg.mintravelfeedrate else feed_rate
  else
    if feed_rate < cfg.minimumfeedrate then cfg.minimumfeedrate else feed_rate

/-- Millimeter delta of the X axis (line 779). -/
def pbl_delta_x_mm (cfg : Config) (st : PState) (x : ℚ) : ℚ :=
  ((pbl_target_x cfg x - st.position_x : ℤ) : ℚ) / cfg.axis_steps_per_unit_x

/-- Millimeter delta of the Y axis (line 780). -/
def pbl_delta_y_mm (cfg : Config) (st : PState) (y : ℚ) : ℚ :=
  ((pbl_target_y cfg y - st.position_y : ℤ) : ℚ) / cfg.axis_steps_per_unit_y

/-- Millimeter delta of the Z axis (line 781). -/
def pbl_delta_z_mm (cfg : Config) (st : PState) (z : ℚ) : ℚ :=
  ((pbl_target_z cfg z - st.position_z : ℤ) : ℚ) / cfg.axis_steps_per_unit_z

/-- Millimeter delta of the E axis, including the extrude multiplier
(lines 782-783). -/
def pbl_delta_e_mm (cfg : Config) (st : PState) (e : ℚ) (extruder : ℕ) : ℚ :=
  ((pbl_target_e cfg e extruder - pbl_pos_e cfg st extruder : ℤ) : ℚ) /
      cfg.axis_steps_per_unit_e extruder * (cfg.extrudemultiply : ℚ) / 100

/-- The no_move classification (line 786): every Cartesian axis moves at most
dropsegments steps. -/
def pbl_no_move (cfg : Config) (st : PState) (x y z : ℚ) : Prop :=
  pbl_steps_x cfg st x ≤ dropsegments ∧ pbl_steps_y cfg st y ≤ dropsegments ∧
    pbl_steps_z cfg st z ≤ dropsegments

instance (cfg : Config) (st : PState) (x y z : ℚ) : Decidable (pbl_no_move cfg st x y z) := by
  unfold pbl_no_move
  infer_instance

/-- Block length in millimeters (lines 788 and 802). -/
def pbl_millimeters (cfg : Config) (sqrtf : ℚ → ℚ) (st : PState) (x y z e : ℚ)
    (extruder : ℕ) : ℚ :=
  if pbl_no_move cfg st x y z then |pbl_delta_e_mm cfg st e extruder|
  else
    sqrtf (pbl_delta_x_mm cfg st x * pbl_delta_x_mm cfg st x +
      pbl_delta_y_mm cfg st y * pbl_delta_y_mm cfg st y +
      pbl_delta_z_mm cfg st z * pbl_delta_z_mm cfg st z)

/-- inverse_second (lines 805-807); the SLOWDOWN stretch is compiled out. -/
def pbl_inverse_second (cfg : Config) (sqrtf : ℚ → ℚ) (st : PState) (x y z e : ℚ)
    (extruder : ℕ) (feed_rate : ℚ) : ℚ :=
  pbl_feed cfg st e extruder feed_rate * (1 / pbl_millimeters cfg sqrtf st x y z e extruder)

/-- nominal_speed before the speed-factor correction (line 829). -/
def pbl_nominal_speed0 (cfg : Config) (sqrtf : ℚ → ℚ) (st : PState) (x y z e : ℚ)
    (extruder : ℕ) (feed_rate : ℚ) : ℚ :=
  pbl_millimeters cfg sqrtf st x y z e extruder *
    pbl_inverse_second cfg sqrtf st x y z e extruder feed_rate

/-- nominal_rate before the speed-factor correction (line 830). -/
def pbl_nominal_rate0 (cfg : Config) (sqrtf : ℚ → ℚ) (st : PState) (x y z e : ℚ)
    (extruder : ℕ) (feed_rate : ℚ) : ℤ :=
  ⌈(pbl_sec cfg st x y z e extruder : ℚ) *
      pbl_inverse_second cfg sqrtf st x y z e extruder feed_rate⌉

/-- current_speed[X] before the speed-factor correction (line 837). -/
def pbl_cs_x0 (cfg : Config) (sqrtf : ℚ → ℚ) (st : PState) (x y z e : ℚ) (extruder : ℕ)
    (feed_rate : ℚ) : ℚ :=
  pbl_delta_x_mm cfg st x * pbl_inverse_second cfg sqrtf st x y z e extruder feed_rate

/-- current_speed[Y] before the speed-factor correction. -/
def pbl_cs_y0 (cfg : Config) (sqrtf : ℚ → ℚ) (st : PState) (x y z e : ℚ) (extruder : ℕ)
    (feed_rate : ℚ) : ℚ :=
  pbl_delta_y_mm cfg st y * pbl_inverse_second cfg sqrtf st x y z e extruder feed_rate

/-- current_speed[Z] before the speed-factor correction. -/
def pbl_cs_z0 (cfg : Config) (sqrtf : ℚ → ℚ) (st : PState) (x y z e : ℚ) (extruder : ℕ)
    (feed_rate : ℚ) : ℚ :=
  pbl_delta_z_mm cfg st z * pbl_inverse_second cfg sqrtf st x y z e extruder feed_rate

/-- current_speed[E] before the speed-factor correction (line 851). -/
def pbl_cs_e0 (cfg : Config) (sqrtf : ℚ → ℚ) (st : PState) (x y z e : ℚ) (extruder : ℕ)
    (feed_rate : ℚ) : ℚ :=
  pbl_delta_e_mm cfg st e extruder *
    pbl_inverse_second cfg sqrtf st x y z e extruder feed_rate

/-- speed_factor (lines 834-856): starts at 1 and is reduced sequentially by
the X, Y, Z and E axis feed-rate limits (COMP_SPEED is 0 with C_COMPENSATION
compiled out). -/
def pbl_speed_factor (cfg : Config) (sqrtf : ℚ → ℚ) (st : PState) (x y z e : ℚ)
    (extruder : ℕ) (feed_rate : ℚ) : ℚ :=
  let csx := pbl_cs_x0 cfg sqrtf st x y z e extruder feed_rate
  let csy := pbl_cs_y0 cfg sqrtf st x y z e extruder feed_rate
  let csz := pbl_cs_z0 cfg sqrtf st x y z e extruder feed_rate
  let cse := pbl_cs_e0 cfg sqrtf st x y z e extruder feed_rate
  let sf : ℚ := 1
  let sf := if |csx| > cfg.max_feedrate_x then min sf (cfg.max_feedrate_x / |csx|) else sf
  let sf := if |csy| > cfg.max_feedrate_y then min sf (cfg.max_feedrate_y / |csy|) else sf
  let sf := if |csz| > cfg.max_feedrate_z then min sf (cfg.max_feedrate_z / |csz|) else sf
  let sf :=
    if |cse| > cfg.max_feedrate_e extruder then min sf (cfg.max_feedrate_e extruder / |cse|)
    else sf
  sf

/-- nominal_speed after the speed-factor correction (lines 894-902). -/
def pbl_nominal_speed (cfg : Config) (sqrtf : ℚ → ℚ) (st : PState) (x y z e : ℚ)
    (extruder : ℕ) (feed_rate : ℚ) : ℚ :=
  if pbl_speed_factor cfg sqrtf st x y z e extruder feed_rate < 1 then
    pbl_nominal_speed0 cfg sqrtf st x y z e extruder feed_rate *
      pbl_speed_factor cfg sqrtf st x y z e extruder feed_rate
  else pbl_nominal_speed0 cfg sqrtf st x y z e extruder feed_rate

/-- nominal_rate after the speed-factor correction; the source multiplies the
unsigned long field by a float, which truncates, hence the floor. -/
def pbl_nominal_rate (cfg : Config) (sqrtf : ℚ → ℚ) (st : PState) (x y z e : ℚ)
    (extruder : ℕ) (feed_rate : ℚ) : ℤ :=
  if pbl_speed_factor cfg sqrtf st x y z e extruder feed_rate < 1 then
    ⌊(pbl_nominal_rate0 cfg sqrtf st x y z e extruder feed_rate : ℚ) *
        pbl_speed_factor cfg sqrtf st x y z e extruder feed_rate⌋
  else pbl_nominal_rate0 cfg sqrtf st x y z e extruder feed_rate

/-- current_speed[X] after the speed-factor correction. -/
def pbl_cs_x (cfg : Config) (sqrtf : ℚ → ℚ) (st : PState) (x y z e : ℚ) (extruder : ℕ)
    (feed_rate : ℚ) : ℚ :=
  if pbl_speed_factor cfg sqrtf st x y z e extruder feed_rate < 1 then
    pbl_cs_x0 cfg sqrtf st x y z e extruder feed_rate *
      pbl_speed_factor cfg sqrtf st x y z e extruder feed_rate
  else pbl_cs_x0 cfg sqrtf st x y z e extruder feed_rate

/-- current_speed[Y] after the speed-factor correction. -/
def pbl_cs_y (cfg : Config) (sqrtf : ℚ → ℚ) (st : PState) (x y z e : ℚ) (extruder : ℕ)
    (feed_rate : ℚ) : ℚ :=
  if pbl_speed_factor cfg sqrtf st x y z e extruder feed_rate < 1 then
    pbl_cs_y0 cfg sqrtf st x y z e extruder feed_rate *
      pbl_speed_factor cfg sqrtf st x y z e extruder feed_rate
  else pbl_cs_y0 cfg sqrtf st x y z e extruder feed_rate

/-- current_speed[Z] after the speed-factor correction. -/
def pbl_cs_z (cfg : Config) (sqrtf : ℚ → ℚ) (st : PState) (x y z e : ℚ) (extruder : ℕ)
    (feed_rate : ℚ) : ℚ :=
  if pbl_speed_factor cfg sqrtf st x y z e extruder feed_rate < 1 then
    pbl_cs_z0 cfg sqrtf st x y z e extruder feed_rate *
      pbl_speed_factor cfg sqrtf st x y z e extruder feed_rate
  else pbl_cs_z0 cfg sqrtf st x y z e extruder feed_rate

/-- current_speed[E] after the speed-factor correction. -/
def pbl_cs_e (cfg : Config) (sqrtf : ℚ → ℚ) (st : PState) (x y z e : ℚ) (extruder : ℕ)
    (feed_rate : ℚ) : ℚ :=
  if pbl_speed_factor cfg sqrtf st x y z e extruder feed_rate < 1 then
    pbl_cs_e0 cfg sqrtf st x y z e extruder feed_rate *
      pbl_speed_factor cfg sqrtf st x y z e extruder feed_rate
  else pbl_cs_e0 cfg sqrtf st x y z e extruder feed_rate

/-- step_event_count / millimeters (line 905). -/
def pbl_steps_per_mm (cfg : Config) (sqrtf : ℚ → ℚ) (st : PState) (x y z e : ℚ)
    (extruder : ℕ) : ℚ :=
  (pbl_sec cfg st x y z e extruder : ℚ) / pbl_millimeters cfg sqrtf st x y z e extruder

/-- axis_steps_per_sqr_second for the X axis (lines 914-919); the unsigned
long store of the ulong-times-float product truncates, hence the floor. -/
def pbl_axis_ss_x (cfg : Config) : ℤ :=
  ⌊(cfg.max_acceleration_units_per_sq_second_x : ℚ) * cfg.axis_steps_per_unit_x⌋

/-- axis_steps_per_sqr_second for the Y axis. -/
def pbl_axis_ss_y (cfg : Config) : ℤ :=
  ⌊(cfg.max_acceleration_units_per_sq_second_y : ℚ) * cfg.axis_steps_per_unit_y⌋

/-- axis_steps_per_sqr_second for the Z axis. -/
def pbl_axis_ss_z (cfg : Config) : ℤ :=
  ⌊(cfg.max_acceleration_units_per_sq_second_z : ℚ) * cfg.axis_steps_per_unit_z⌋

/-- axis_steps_per_sqr_second for the E axis of the given extruder. -/
def pbl_axis_ss_e (cfg : Config) (extruder : ℕ) : ℤ :=
  ⌊(cfg.max_acceleration_units_per_sq_second_e extruder : ℚ) *
      cfg.axis_steps_per_unit_e extruder⌋

/-- acceleration_st (lines 906-929): retract acceleration for pure-E moves,
otherwise the global acceleration clamped sequentially by each axis cap. -/
def pbl_acceleration_st (cfg : Config) (sqrtf : ℚ → ℚ) (st : PState) (x y z e : ℚ)
    (extruder : ℕ) : ℤ :=
  let spm := pbl_steps_per_mm cfg sqrtf st x y z e extruder
  let sec := pbl_sec cfg st x y z e extruder
  if pbl_no_move cfg st x y z then ⌈cfg.retract_acceleration extruder * spm⌉
  else
    let a : ℤ := ⌈cfg.acceleration * spm⌉
    let a :=
      if (a : ℚ) * (pbl_steps_x cfg st x : ℚ) / (sec : ℚ) > (pbl_axis_ss_x cfg : ℚ) then
        pbl_axis_ss_x cfg
      else a
    let a :=
      if (a : ℚ) * (pbl_steps_y cfg st y : ℚ) / (sec : ℚ) > (pbl_axis_ss_y cfg : ℚ) then
        pbl_axis_ss_y cfg
      else a
    let a :=
      if (a : ℚ) * (pbl_steps_z cfg st z : ℚ) / (sec : ℚ) > (pbl_axis_ss_z cfg : ℚ) then
        pbl_axis_ss_z cfg
      else a
    let a :=
      if (a : ℚ) * (pbl_steps_e cfg st e extruder : ℚ) / (sec : ℚ) >
          (pbl_axis_ss_e cfg extruder : ℚ) then
        pbl_axis_ss_e cfg extruder
      else a
    a

/-- block acceleration in mm/s^2 (line 930). -/
def pbl_acceleration (cfg : Config) (sqrtf : ℚ → ℚ) (st : PState) (x y z e : ℚ)
    (extruder : ℕ) : ℚ :=
  (pbl_acceleration_st cfg sqrtf st x y z e extruder : ℚ) /
    pbl_steps_per_mm cfg sqrtf st x y z e extruder

/-- acceleration_rate (line 931); the long store truncates the float product. -/
def pbl_acceleration_rate (cfg : Config) (sqrtf : ℚ → ℚ) (st : PState) (x y z e : ℚ)
    (extruder : ℕ) : ℤ :=
  ⌊(pbl_acceleration_st cfg sqrtf st x y z e extruder : ℚ) * (8388608 / 1000000 : ℚ)⌋

/-- vmax_junction of the XYZ-moving branch (lines 941-964), including the
previous-block jerk analysis.  COMP_SPEED is 0 in this configuration. -/
def pbl_vmax_junction (cfg : Config) (sqrtf : ℚ → ℚ) (st : PState) (x y z e : ℚ)
    (extruder : ℕ) (feed_rate : ℚ) : ℚ :=
  let csx := pbl_cs_x cfg sqrtf st x y z e extruder feed_rate
  let csy := pbl_cs_y cfg sqrtf st x y z e extruder feed_rate
  let csz := pbl_cs_z cfg sqrtf st x y z e extruder feed_rate
  let cse := pbl_cs_e cfg sqrtf st x y z e extruder feed_rate
  let ns := pbl_nominal_speed cfg sqrtf st x y z e extruder feed_rate
  let v := cfg.max_xy_jerk / 2
  let v := if |csz| > cfg.max_z_jerk / 2 then min v (cfg.max_z_jerk / 2) else v
  let v := if |cse| > cfg.max_e_jerk extruder / 2 then min v (cfg.max_e_jerk extruder / 2) else v
  let v := min v ns
  if num_blocks_queued st > 1 ∧ st.previous_nominal_speed > 1/10000 then
    let jerk := sqrtf ((csx - st.previous_speed_x) ^ 2 + (csy - st.previous_speed_y) ^ 2)
    let factor : ℚ := 1
    let factor := if jerk > cfg.max_xy_jerk then cfg.max_xy_jerk / jerk else factor
    let factor :=
      if |csz - st.previous_speed_z| > cfg.max_z_jerk then
        min factor (cfg.max_z_jerk / |csz - st.previous_speed_z|)
      else factor
    let factor :=
      if |cse - st.previous_speed_e| > cfg.max_e_jerk extruder then
        min factor (cfg.max_e_jerk extruder / |cse - st.previous_speed_e|)
      else factor
    min st.previous_nominal_speed (ns * factor)
  else v

/-- v_allowable (line 968): the highest entry speed from which the block can
decelerate to MINIMUM_PLANNER_SPEED (mps) within its own length. -/
def pbl_v_allowable (cfg : Config) (sqrtf : ℚ → ℚ) (mps : ℚ) (st : PState) (x y z e : ℚ)
    (extruder : ℕ) : ℚ :=
  max_allowable_speed sqrtf (-pbl_acceleration cfg sqrtf st x y z e extruder) mps
    (pbl_millimeters cfg sqrtf st x y z e extruder)

/-- The junction speed of the pure-E branch (line 937). -/
def pbl_e_junction (cfg : Config) (sqrtf : ℚ → ℚ) (st : PState) (x y z e : ℚ)
    (extruder : ℕ) (feed_rate : ℚ) : ℚ :=
  min (cfg.max_e_jerk extruder) (pbl_nominal_speed cfg sqrtf st x y z e extruder feed_rate)

/-- max_entry_speed of the new block (lines 937 and 965). -/
def pbl_max_entry_speed (cfg : Config) (sqrtf : ℚ → ℚ) (st : PState) (x y z e : ℚ)
    (extruder : ℕ) (feed_rate : ℚ) : ℚ :=
  if pbl_no_move cfg st x y z then pbl_e_junction cfg sqrtf st x y z e extruder feed_rate
  else pbl_vmax_junction cfg sqrtf st x y z e extruder feed_rate

/-- entry_speed of the new block (lines 937 and 969). -/
def pbl_entry_speed (cfg : Config) (sqrtf : ℚ → ℚ) (mps : ℚ) (st : PState) (x y z e : ℚ)
    (extruder : ℕ) (feed_rate : ℚ) : ℚ :=
  if pbl_no_move cfg st x y z then pbl_e_junction cfg sqrtf st x y z e extruder feed_rate
  else
    min (pbl_vmax_junction cfg sqrtf st x y z e extruder feed_rate)
      (pbl_v_allowable cfg sqrtf mps st x y z e extruder)

/-- The value of the function-scope local safe_speed at the trapezoid call on
line 996.  On the pure-E path it was assigned on line 937; on the XYZ-moving
path it was never assigned, because the declaration on line 949 shadows it,
so its value is indeterminate and is supplied by the uninit_safe_speed
parameter. -/
def pbl_safe_speed_used (cfg : Config) (sqrtf : ℚ → ℚ) (st : PState) (x y z e : ℚ)
    (extruder : ℕ) (feed_rate uninit_safe_speed : ℚ) : ℚ :=
  if pbl_no_move cfg st x y z then pbl_e_junction cfg sqrtf st x y z e extruder feed_rate
  else uninit_safe_speed

/-- The fully prepared block as written to buffer[head] before the trapezoid
call (lines 707-994).  The initial_rate, final_rate, accelerate_until and
decelerate_after fields keep whatever the slot held before (the source never
initializes them here), and on the pure-E path nominal_length_flag and
recalculate_flag also keep the slot's previous values, because lines 979-993
sit inside the XYZ-moving branch. -/
def pbl_prepared_block (cfg : Config) (sqrtf : ℚ → ℚ) (mps : ℚ) (st : PState) (x y z e : ℚ)
    (extruder : ℕ) (feed_rate : ℚ) : Block :=
  let old := bget st.blocks st.block_buffer_head
  { old with
    busy := false
    steps_x := pbl_steps_x cfg st x
    steps_y := pbl_steps_y cfg st y
    steps_z := pbl_steps_z cfg st z
    steps_e := pbl_steps_e cfg st e extruder
    step_event_count := pbl_sec cfg st x y z e extruder
    fan_speed := cfg.fanSpeed extruder
    direction_bits := pbl_direction_bits cfg st x y z e extruder
    active_extruder := extruder
    travel := decide (pbl_steps_e cfg st e extruder = 0)
    retract :=
      decide (pbl_no_move cfg st x y z ∧ pbl_steps_e cfg st e extruder ≠ 0 ∧
        pbl_target_e cfg e extruder < pbl_pos_e cfg st extruder)
    restore :=
      decide (pbl_no_move cfg st x y z ∧ pbl_steps_e cfg st e extruder ≠ 0 ∧
        ¬ pbl_target_e cfg e extruder < pbl_pos_e cfg st extruder)
    millimeters := pbl_millimeters cfg sqrtf st x y z e extruder
    nominal_speed := pbl_nominal_speed cfg sqrtf st x y z e extruder feed_rate
    nominal_rate := pbl_nominal_rate cfg sqrtf st x y z e extruder feed_rate
    acceleration_st := pbl_acceleration_st cfg sqrtf st x y z e extruder
    acceleration := pbl_acceleration cfg sqrtf st x y z e extruder
    acceleration_rate := pbl_acceleration_rate cfg sqrtf st x y z e extruder
    max_entry_speed := pbl_max_entry_speed cfg sqrtf st x y z e extruder feed_rate
    entry_speed := pbl_entry_speed cfg sqrtf mps st x y z e extruder feed_rate
    nominal_length_flag :=
      if pbl_no_move cfg st x y z then old.nominal_length_flag
      else
        decide (pbl_nominal_speed cfg sqrtf st x y z e extruder feed_rate ≤
          pbl_v_allowable cfg sqrtf mps st x y z e extruder)
    recalculate_flag := if pbl_no_move cfg st x y z then old.recalculate_flag else true }

/-- The block after the initial trapezoid resolution call (lines 996-997). -/
def pbl_resolved_block (cfg : Config) (sqrtf : ℚ → ℚ) (mps : ℚ) (st : PState) (x y z e : ℚ)
    (extruder : ℕ) (feed_rate uninit_safe_speed : ℚ) : Block :=
  calculate_trapezoid_for_block (pbl_prepared_block cfg sqrtf mps st x y z e extruder feed_rate)
    (pbl_entry_speed cfg sqrtf mps st x y z e extruder feed_rate /
      pbl_nominal_speed cfg sqrtf st x y z e extruder feed_rate)
    (pbl_safe_speed_used cfg sqrtf st x y z e extruder feed_rate uninit_safe_speed /
      pbl_nominal_speed cfg sqrtf st x y z e extruder feed_rate)

/-- Source plan_buffer_line (lines 647-1013).  The full-buffer busy-wait is
modelled by returning the state unchanged (theorems carry the not-full
precondition); PREVENT_DANGEROUS_EXTRUDE, SLOWDOWN and XY_FREQUENCY_LIMIT
are compiled out; st_wake_up and the motor-enable pins are external I/O.
uninit_safe_speed supplies the indeterminate value of the shadowed local
safe_speed on the XYZ-moving path; mps models MINIMUM_PLANNER_SPEED. -/
def plan_buffer_line (cfg : Config) (sqrtf : ℚ → ℚ) (mps : ℚ) (st : PState)
    (x y z e feed_rate : ℚ) (extruder : ℕ) (uninit_safe_speed : ℚ) : PState :=
  let next_buffer_head := next_block_index st.block_buffer_head
  if st.block_buffer_tail = next_buffer_head then st
  else if pbl_sec cfg st x y z e extruder ≤ dropsegments then
    { st with
      position_e := pbl_pos_e cfg st extruder
      blocks :=
        bset st.blocks st.block_buffer_head (pbl_scratch_block cfg st x y z e extruder) }
  else
    let st1 : PState :=
      { st with
        blocks :=
          bset st.blocks st.block_buffer_head
            (pbl_resolved_block cfg sqrtf mps st x y z e extruder feed_rate uninit_safe_speed)
        previous_speed_x := pbl_cs_x cfg sqrtf st x y z e extruder feed_rate
        previous_speed_y := pbl_cs_y cfg sqrtf st x y z e extruder feed_rate
        previous_speed_z := pbl_cs_z cfg sqrtf st x y z e extruder feed_rate
        previous_speed_e := pbl_cs_e cfg sqrtf st x y z e extruder feed_rate
        previous_nominal_speed := pbl_nominal_speed cfg sqrtf st x y z e extruder feed_rate
        block_buffer_head := next_buffer_head
        position_x := pbl_target_x cfg x
        position_y := pbl_target_y cfg y
        position_z := pbl_target_z cfg z
        position_e := pbl_target_e cfg e extruder }
    planner_recalculate sqrtf mps st1

/-- Source plan_set_position (lines 1015-1028); ACTIVE_EXTRUDER is the
dispatcher's active extruder, passed as a parameter; st_set_position is
external. -/
def plan_set_position (cfg : Config) (st : PState) (x y z e : ℚ)
    (active_extruder : ℕ) : PState :=
  { st with
    position_x := lround (x * cfg.axis_steps_per_unit_x)
    position_y := lround (y * cfg.axis_steps_per_unit_y)
    position_z := lround (z * cfg.axis_steps_per_unit_z)
    position_e := lround (e * cfg.axis_steps_per_unit_e active_extruder)
    last_extruder := active_extruder
    previous_nominal_speed := 0
    previous_speed_x := 0
    previous_speed_y := 0
    previous_speed_z := 0
    previous_speed_e := 0 }

/-- Source plan_set_e_position (lines 1030-1035). -/
def plan_set_e_position (cfg : Config) (st : PState) (e : ℚ) (active_extruder : ℕ) : PState :=
  { st with
    position_e := lround (e * cfg.axis_steps_per_unit_e active_extruder)
    last_extruder := active_extruder }

/-- The outputs of check_axes_activity: the per-axis activity counts and the
per-extruder fan PWM values written out (PER_EXTRUDER_FANS build). -/
structure AxesActivity where
  x_active : ℕ
  y_active : ℕ
  z_active : ℕ
  e_active : ℕ
  fan : ℕ → ℕ

/-- The counting while-loop of check_axes_activity (lines 558-566). -/
def caa_loop (headIdx : ℕ) : ℕ → ℕ → ℕ × ℕ × ℕ × ℕ → Buf → ℕ × ℕ × ℕ × ℕ
  | 0, _, acc, _ => acc
  | fuel + 1, idx, acc, buf =>
    if idx = headIdx then acc
    else
      let b := bget buf idx
      let acc :=
        (acc.1 + (if b.steps_x ≠ 0 then 1 else 0),
         acc.2.1 + (if b.steps_y ≠ 0 then 1 else 0),
         acc.2.2.1 + (if b.steps_z ≠ 0 then 1 else 0),
         acc.2.2.2 + (if b.steps_e ≠ 0 then 1 else 0))
      caa_loop headIdx fuel ((idx + 1) % 16) acc buf

/-- Source check_axes_activity (lines 543-640): tail_fan_speed starts from
the configured fanSpeed array; when the queue is not empty, the entry of the
tail block's active extruder is overwritten with that block's fan_speed
before the counting loop runs (lines 552-557).  FAN_KICKSTART_TIME, the
follow-me coupling and AUTOTEMP are compiled out, and the motor-disable pins
are external I/O driven by the returned counts. -/
def check_axes_activity (cfg : Config) (st : PState) : AxesActivity :=
  let base := cfg.fanSpeed
  if st.block_buffer_tail ≠ st.block_buffer_head then
    let tb := bget st.blocks st.block_buffer_tail
    let fan := Function.update base tb.active_extruder tb.fan_speed
    let counts := caa_loop st.block_buffer_head 16 st.block_buffer_tail (0, 0, 0, 0) st.blocks
    { x_active := counts.1, y_active := counts.2.1, z_active := counts.2.2.1,
      e_active := counts.2.2.2, fan := fan }
  else
    { x_active := 0, y_active := 0, z_active := 0, e_active := 0, fan := base }

/-- Positional characterization of the reverse pass, used by the amended
claim C3: apply the reverse kernel to the blocks at offsets p, p-1, ..., 1
from the tail, in that order, each cur at offset q read together with its
queue successor at offset q+1. -/
def reverse_pass_adjust_positions (sqrtf : ℚ → ℚ) (tailIdx : ℕ) : ℕ → Buf → Buf
  | 0, buf => buf
  | p + 1, buf =>
    reverse_pass_adjust_positions sqrtf tailIdx p
      (planner_reverse_pass_kernel sqrtf buf (some ((tailIdx + (p + 1)) % 16))
        (some ((tailIdx + (p + 2)) % 16)))

/-- A zeroed buffer slot: what a freshly booted ring-buffer slot is modelled
to hold in the concrete scenarios below. -/
def blk0 : Block :=
  { steps_x := 0, steps_y := 0, steps_z := 0, steps_e := 0, step_event_count := 0
    direction_bits := 0, fan_speed := 0, active_extruder := 0
    travel := false, retract := false, restore := false
    millimeters := 0, nominal_speed := 0, nominal_rate := 0
    entry_speed := 0, max_entry_speed := 0
    acceleration_st := 0, acceleration := 0, acceleration_rate := 0
    nominal_length_flag := false, recalculate_flag := false, busy := false
    initial_rate := 0, final_rate := 0, accelerate_until := 0, decelerate_after := 0 }

/-- A zeroed slot whose nominal_length_flag is set, used where the scenario
needs the stale flag to be true. -/
def blk0T : Block := { blk0 with nominal_length_flag := true }

/-- A planner state at the origin with an empty queue, every slot holding b. -/
def stZero (b : Block) : PState :=
  { blocks := fun _ => b
    block_buffer_head := 0, block_buffer_tail := 0
    position_x := 0, position_y := 0, position_z := 0, position_e := 0
    previous_speed_x := 0, previous_speed_y := 0, previous_speed_z := 0
    previous_speed_e := 0
    previous_nominal_speed := 0, last_extruder := 0 }

/-- The everywhere-zero stand-in for sqrt, usable on runs that never consult
the square root. -/
def sqrtf0 : ℚ → ℚ := fun _ => 0

/-- A sqrt table exact at the two arguments the single-X-move scenarios hit:
100 (the millimeter length) and 60025 = 245^2 (the v_allowable argument for
acceleration 3000, length 10 and MINIMUM_PLANNER_SPEED 5). -/
def sqrtfTab : ℚ → ℚ := fun q => if q = 100 then 10 else if q = 60025 then 245 else 0

/-- A strictly positive sqrt stand-in, exact at 100, used to discharge the
positivity hypothesis of claim C10's witness. -/
def sqrtfPos : ℚ → ℚ := fun q => if q = 100 then 10 else 1

/-- The base concrete configuration of the scenarios: the spec's end-to-end
numbers (80 steps/mm, acceleration 3000 mm/s^2, max_xy_jerk 20). -/
def cfgA : Config :=
  { axis_steps_per_unit_x := 80, axis_steps_per_unit_y := 80, axis_steps_per_unit_z := 80
    axis_steps_per_unit_e := fun _ => 100
    max_feedrate_x := 200, max_feedrate_y := 200, max_feedrate_z := 200
    max_feedrate_e := fun _ => 45
    max_acceleration_units_per_sq_second_x := 9000
    max_acceleration_units_per_sq_second_y := 9000
    max_acceleration_units_per_sq_second_z := 9000
    max_acceleration_units_per_sq_second_e := fun _ => 9000
    acceleration := 3000
    retract_acceleration := fun _ => 3
    max_xy_jerk := 20, max_z_jerk := 2/5, max_e_jerk := fun _ => 10
    minimumfeedrate := 1/10, mintravelfeedrate := 1/10
    extrudemultiply := 100
    fanSpeed := fun _ => 0 }

/-- Configuration with a tool swap: extruder 0 at 100 steps/mm, every other
extruder at 140 steps/mm (the spec's extruder-swap scenario). -/
def cfgSwap : Config := { cfgA with axis_steps_per_unit_e := fun i => if i = 0 then 100 else 140 }

/-- Configuration with retract acceleration 2 mm/s^2, chosen so that the
pure-E v_allowable argument is a perfect square. -/
def cfgRet : Config := { cfgA with retract_acceleration := fun _ => 2 }

/-- Configuration whose configured fan PWM is 7 for every extruder. -/
def cfgFan : Config := { cfgA with fanSpeed := fun _ => 7 }

/-- Fields of a block that neither look-ahead kernel nor the trapezoid
resolver ever writes: the geometry, speeds and classification computed at
insertion time.  Used to carry block attributes across the recalculation
passes. -/
def SameCore (a b : Block) : Prop :=
  a.steps_x = b.steps_x ∧ a.steps_y = b.steps_y ∧ a.steps_z = b.steps_z ∧
    a.steps_e = b.steps_e ∧ a.step_event_count = b.step_event_count ∧
    a.millimeters = b.millimeters ∧ a.nominal_speed = b.nominal_speed ∧
    a.nominal_rate = b.nominal_rate ∧ a.acceleration = b.acceleration ∧
    a.acceleration_st = b.acceleration_st ∧ a.max_entry_speed = b.max_entry_speed ∧
    a.nominal_length_flag = b.nominal_length_flag ∧ a.fan_speed = b.fan_speed ∧
    a.active_extruder = b.active_extruder

/-- The planner state of the single-X-move scenarios: empty queue, origin. -/
def stA : PState := stZero blk0

/-- The planner state of the extruder-swap scenarios: position[E] = 1000
steps (10 mm at 100 steps/mm on extruder 0), last_extruder = 0. -/
def stSwap : PState := { stZero blk0T with position_e := 1000 }

/-- A queued block whose entry speed is below its maximal entry speed and
whose nominal-length flag is set: the reverse-pass kernel would raise its
entry speed to max_entry_speed. -/
def blkRev : Block :=
  { blk0 with entry_speed := 1, max_entry_speed := 2, nominal_length_flag := true }

/-- A depth-3 queue (tail 0, head 3) whose middle block is blkRev. -/
def stRev : PState :=
  { stZero blk0 with
    blocks := fun i => if i.val = 1 then blkRev else blk0
    block_buffer_head := 3 }

/-- A depth-7 queue of zeroed blocks, used as the reverse-pass witness. -/
def stRev7 : PState := { stZero blk0 with block_buffer_head := 7 }

/-- Tail block of the fan scenario: extruder 0, fan PWM 100. -/
def blkFanA : Block := { blk0 with fan_speed := 100 }

/-- Newest block of the fan scenario: extruder 0, fan PWM 200. -/
def blkFanB : Block := { blk0 with fan_speed := 200 }

/-- A depth-2 queue whose tail block carries fan 100 and whose newest block
carries fan 200, both on extruder 0. -/
def stFan : PState :=
  { stZero blk0 with
    blocks := fun i => if i.val = 0 then blkFanA else if i.val = 1 then blkFanB else blk0
    block_buffer_head := 2 }

/-- A block whose stored initial_rate and final_rate (100) differ from the
rates any factor in (0,1] would produce from its nominal rate (800). -/
def blkC1 : Block :=
  { blk0 with
    nominal_rate := 800
    initial_rate := 100
    final_rate := 100
    acceleration_st := 1000
    step_event_count := 1000 }

/-- A block whose nominal rate (100) is below MIN_STEP_RATE (120). -/
def blkC5 : Block :=
  { blk0 with nominal_rate := 100, acceleration_st := 1000, step_event_count := 1000 }

/-- A block with nominal rate 800, used as the clamping witness. -/
def blkC5W : Block :=
  { blk0 with nominal_rate := 800, acceleration_st := 1000, step_event_count := 1000 }

/-- A busy block (claimed by the stepper). -/
def blkC6 : Block :=
  { blkC1 with busy := true, accelerate_until := 17, decelerate_after := 23 }

/-- Source plan_init (lines 489-498). -/
def plan_init (st : PState) : PState :=
  { st with
    block_buffer_head := 0
    block_buffer_tail := 0
    position_x := 0
    position_y := 0
    position_z := 0
    position_e := 0
    previous_speed_x := 0
    previous_speed_y := 0
    previous_speed_z := 0
    previous_speed_e := 0
    previous_nominal_speed := 0 }

/-! ## Generic lemmas about the buffer and the recalculation passes -/

theorem lem_bget_bset (buf : Buf) (i : ℕ) (b : Block) (j : ℕ) :
    bget (bset buf i b) j = if j % 16 = i % 16 then b else bget buf j := by
  simp [bget, bset, Function.update_apply, Fin.mk.injEq]

theorem lem_bget_bset_same (buf : Buf) (i : ℕ) (b : Block) : bget (bset buf i b) i = b := by
  simp [lem_bget_bset]

theorem lem_samecore_refl (a : Block) : SameCore a a := by
  unfold SameCore
  exact ⟨rfl, rfl, rfl, rfl, rfl, rfl, rfl, rfl, rfl, rfl, rfl, rfl, rfl, rfl⟩

theorem lem_samecore_trans {a b c : Block} (h1 : SameCore a b) (h2 : SameCore b c) :
    SameCore a c := by
  obtain ⟨a1, a2, a3, a4, a5, a6, a7, a8, a9, a10, a11, a12, a13, a14⟩ := h1
  obtain ⟨b1, b2, b3, b4, b5, b6, b7, b8, b9, b10, b11, b12, b13, b14⟩ := h2
  exact ⟨a1.trans b1, a2.trans b2, a3.trans b3, a4.trans b4, a5.trans b5, a6.trans b6,
    a7.trans b7, a8.trans b8, a9.trans b9, a10.trans b10, a11.trans b11, a12.trans b12,
    a13.trans b13, a14.trans b14⟩

theorem lem_trap_core (b : Block) (f1 f2 : ℚ) :
    SameCore (calculate_trapezoid_for_block b f1 f2) b := by
  simp only [calculate_trapezoid_for_block]
  split
  · exact ⟨rfl, rfl, rfl, rfl, rfl, rfl, rfl, rfl, rfl, rfl, rfl, rfl, rfl, rfl⟩
  · exact lem_samecore_refl b

theorem lem_trap_initial_rate (b : Block) (f1 f2 : ℚ) (hb : b.busy = false) :
    (calculate_trapezoid_for_block b f1 f2).initial_rate =
      if ⌈(b.nominal_rate : ℚ) * f1⌉ < 120 then 120 else ⌈(b.nominal_rate : ℚ) * f1⌉ := by
  simp [calculate_trapezoid_for_block, hb]

theorem lem_trap_final_rate (b : Block) (f1 f2 : ℚ) (hb : b.busy = false) :
    (calculate_trapezoid_for_block b f1 f2).final_rate =
      if (if ⌈(b.nominal_rate : ℚ) * f2⌉ < 120 then (120 : ℤ) else ⌈(b.nominal_rate : ℚ) * f2⌉) >
          b.nominal_rate then
        b.nominal_rate
      else if ⌈(b.nominal_rate : ℚ) * f2⌉ < 120 then (120 : ℤ) else ⌈(b.nominal_rate : ℚ) * f2⌉ := by
  simp [calculate_trapezoid_for_block, hb]

theorem lem_bget_congr (buf : Buf) {i j : ℕ} (h : i % 16 = j % 16) :
    bget buf i = bget buf j := by
  simp [bget, h]

theorem lem_rev_kernel_core (sqrtf : ℚ → ℚ) (buf : Buf) (cur nxt : Option ℕ) (j : ℕ) :
    SameCore (bget (planner_reverse_pass_kernel sqrtf buf cur nxt) j) (bget buf j) := by
  cases cur with
  | none => exact lem_samecore_refl _
  | some c =>
    cases nxt with
    | none => exact lem_samecore_refl _
    | some n =>
      simp only [planner_reverse_pass_kernel]
      split
      · rw [lem_bget_bset]
        split
        · rename_i h
          rw [lem_bget_congr buf h]
          exact ⟨rfl, rfl, rfl, rfl, rfl, rfl, rfl, rfl, rfl, rfl, rfl, rfl, rfl, rfl⟩
        · exact lem_samecore_refl _
      · exact lem_samecore_refl _

theorem lem_fwd_kernel_core (sqrtf : ℚ → ℚ) (buf : Buf) (prev cur : Option ℕ) (j : ℕ) :
    SameCore (bget (planner_forward_pass_kernel sqrtf buf prev cur) j) (bget buf j) := by
  cases prev with
  | none => exact lem_samecore_refl _
  | some p =>
    cases cur with
    | none => exact lem_samecore_refl _
    | some c =>
      simp only [planner_forward_pass_kernel]
      split
      · split
        · split
          · rw [lem_bget_bset]
            split
            · rename_i h
              rw [lem_bget_congr buf h]
              exact ⟨rfl, rfl, rfl, rfl, rfl, rfl, rfl, rfl, rfl, rfl, rfl, rfl, rfl, rfl⟩
            · exact lem_samecore_refl _
          · exact lem_samecore_refl _
        · exact lem_samecore_refl _
      · exact lem_samecore_refl _

theorem lem_trapset_core (buf : Buf) (c : ℕ) (f1 f2 : ℚ) (j : ℕ) :
    SameCore
      (bget (bset buf c
        { calculate_trapezoid_for_block (bget buf c) f1 f2 with recalculate_flag := false }) j)
      (bget buf j) := by
  rw [lem_bget_bset]
  split
  · rename_i h
    rw [lem_bget_congr buf h]
    refine lem_samecore_trans ?_ (lem_trap_core (bget buf c) f1 f2)
    exact ⟨rfl, rfl, rfl, rfl, rfl, rfl, rfl, rfl, rfl, rfl, rfl, rfl, rfl, rfl⟩
  · exact lem_samecore_refl _

theorem lem_rev_loop_core (sqrtf : ℚ → ℚ) (tl : ℕ) :
    ∀ (fuel idx : ℕ) (b0 b1 : Option ℕ) (buf : Buf) (j : ℕ),
      SameCore (bget (reverse_pass_loop sqrtf tl fuel idx b0 b1 buf) j) (bget buf j)
  | 0, _, _, _, _, _ => lem_samecore_refl _
  | fuel + 1, idx, b0, b1, buf, j => by
    simp only [reverse_pass_loop]
    split
    · exact lem_samecore_refl _
    · exact lem_samecore_trans (lem_rev_loop_core sqrtf tl fuel _ _ _ _ j)
        (lem_rev_kernel_core sqrtf buf b0 b1 j)

theorem lem_fwd_loop_core (sqrtf : ℚ → ℚ) (hd : ℕ) :
    ∀ (fuel idx : ℕ) (b1 b2 : Option ℕ) (buf : Buf) (j : ℕ),
      SameCore (bget (forward_pass_loop sqrtf hd fuel idx b1 b2 buf) j) (bget buf j)
  | 0, _, _, _, _, _ => lem_samecore_refl _
  | fuel + 1, idx, b1, b2, buf, j => by
    simp only [forward_pass_loop]
    split
    · exact lem_fwd_kernel_core sqrtf buf b1 b2 j
    · exact lem_samecore_trans (lem_fwd_loop_core sqrtf hd fuel _ _ _ _ j)
        (lem_fwd_kernel_core sqrtf buf b1 b2 j)

theorem lem_recalc_loop_core (mps : ℚ) (hd : ℕ) :
    ∀ (fuel idx : ℕ) (nxt : Option ℕ) (buf : Buf) (j : ℕ),
      SameCore (bget (recalc_trapezoids_loop mps hd fuel idx nxt buf) j) (bget buf j)
  | 0, _, _, _, _ => lem_samecore_refl _
  | fuel + 1, idx, nxt, buf, j => by
    cases nxt with
    | none =>
      simp only [recalc_trapezoids_loop]
      split
      · exact lem_samecore_refl _
      · exact lem_recalc_loop_core mps hd fuel _ _ buf j
    | some c =>
      simp only [recalc_trapezoids_loop]
      split
      · exact lem_trapset_core buf c _ _ j
      · refine lem_samecore_trans (lem_recalc_loop_core mps hd fuel _ _ _ j) ?_
        split
        · exact lem_trapset_core buf c _ _ j
        · exact lem_samecore_refl _

theorem lem_recalc_core (sqrtf : ℚ → ℚ) (mps : ℚ) (st : PState) (j : ℕ) :
    SameCore (bget (planner_recalculate sqrtf mps st).blocks j) (bget st.blocks j) := by
  unfold planner_recalculate planner_recalculate_trapezoids planner_forward_pass
  refine lem_samecore_trans (lem_recalc_loop_core _ _ _ _ _ _ _) ?_
  refine lem_samecore_trans (lem_fwd_loop_core _ _ _ _ _ _ _ _) ?_
  unfold planner_reverse_pass
  split
  · exact lem_rev_loop_core _ _ _ _ _ _ _ _
  · exact lem_samecore_refl _

theorem lem_recalc_fields (sqrtf : ℚ → ℚ) (mps : ℚ) (st : PState) :
    (planner_recalculate sqrtf mps st).block_buffer_head = st.block_buffer_head ∧
    (planner_recalculate sqrtf mps st).block_buffer_tail = st.block_buffer_tail ∧
    (planner_recalculate sqrtf mps st).position_x = st.position_x ∧
    (planner_recalculate sqrtf mps st).position_y = st.position_y ∧
    (planner_recalculate sqrtf mps st).position_z = st.position_z ∧
    (planner_recalculate sqrtf mps st).position_e = st.position_e ∧
    (planner_recalculate sqrtf mps st).previous_speed_x = st.previous_speed_x ∧
    (planner_recalculate sqrtf mps st).previous_speed_y = st.previous_speed_y ∧
    (planner_recalculate sqrtf mps st).previous_speed_z = st.previous_speed_z ∧
    (planner_recalculate sqrtf mps st).previous_speed_e = st.previous_speed_e ∧
    (planner_recalculate sqrtf mps st).previous_nominal_speed = st.previous_nominal_speed ∧
    (planner_recalculate sqrtf mps st).last_extruder = st.last_extruder := by
  unfold planner_recalculate planner_recalculate_trapezoids planner_forward_pass
    planner_reverse_pass
  split <;> simp

theorem lem_pbl_dropped (cfg : Config) (sqrtf : ℚ → ℚ) (mps : ℚ) (st : PState)
    (x y z e feed : ℚ) (ext : ℕ) (u : ℚ)
    (hfull : st.block_buffer_tail ≠ next_block_index st.block_buffer_head)
    (hdrop : pbl_sec cfg st x y z e ext ≤ dropsegments) :
    plan_buffer_line cfg sqrtf mps st x y z e feed ext u =
      { st with
        position_e := pbl_pos_e cfg st ext
        blocks := bset st.blocks st.block_buffer_head (pbl_scratch_block cfg st x y z e ext) } := by
  simp [plan_buffer_line, hfull, hdrop]

theorem lem_pbl_accepted (cfg : Config) (sqrtf : ℚ → ℚ) (mps : ℚ) (st : PState)
    (x y z e feed : ℚ) (ext : ℕ) (u : ℚ)
    (hfull : st.block_buffer_tail ≠ next_block_index st.block_buffer_head)
    (hacc : ¬ pbl_sec cfg st x y z e ext ≤ dropsegments) :
    plan_buffer_line cfg sqrtf mps st x y z e feed ext u =
      planner_recalculate sqrtf mps
        { st with
          blocks :=
            bset st.blocks st.block_buffer_head
              (pbl_resolved_block cfg sqrtf mps st x y z e ext feed u)
          previous_speed_x := pbl_cs_x cfg sqrtf st x y z e ext feed
          previous_speed_y := pbl_cs_y cfg sqrtf st x y z e ext feed
          previous_speed_z := pbl_cs_z cfg sqrtf st x y z e ext feed
          previous_speed_e := pbl_cs_e cfg sqrtf st x y z e ext feed
          previous_nominal_speed := pbl_nominal_speed cfg sqrtf st x y z e ext feed
          block_buffer_head := next_block_index st.block_buffer_head
          position_x := pbl_target_x cfg x
          position_y := pbl_target_y cfg y
          position_z := pbl_target_z cfg z
          position_e := pbl_target_e cfg e ext } := by
  simp [plan_buffer_line, hfull, hacc]

theorem lem_next_ne (h : ℕ) : next_block_index h ≠ h := by
  unfold next_block_index
  split <;> omega

/-! ## Claim C1 -/

/-- Claim C1 (code bug).  The claim states that calculate_trapezoid_for_block
derives accelerate_steps and decelerate_steps from the freshly computed and
clamped initial and final rates.  The code instead reads the block's stored
initial_rate and final_rate fields, which at this point still hold the slot's
previous values.  At blkC1 (stored rates 100, nominal rate 800, acceleration
1000 steps/s^2, 1000 steps) with entry and exit factors 1, the fresh clamped
rates are both 800, so the claimed accelerate_steps is
ceil((800^2 - 800^2) / (2 * 1000)) = 0, yet the code commits 315 = the value
computed from the stale stored rate 100, together with initial_rate 800. -/
theorem c1_stale_rate_divergence :
    (calculate_trapezoid_for_block blkC1 1 1).initial_rate = 800 ∧
    (calculate_trapezoid_for_block blkC1 1 1).final_rate = 800 ∧
    (calculate_trapezoid_for_block blkC1 1 1).accelerate_until = 315 ∧
    (calculate_trapezoid_for_block blkC1 1 1).accelerate_until ≠
      ⌈(((blkC1.nominal_rate : ℚ)) ^ 2 -
          (((calculate_trapezoid_for_block blkC1 1 1).initial_rate : ℚ)) ^ 2) /
        (2 * (blkC1.acceleration_st : ℚ))⌉ := by
  with_unfolding_all decide

/-! ## Claim C6 -/

/-- Claim C6 (confirmed).  A busy block is left entirely unchanged by
calculate_trapezoid_for_block, in particular its accelerate_until,
decelerate_after, initial_rate and final_rate; for a non-busy block the
function's only effect is the single commit of exactly those four fields
(the critical section of the source is modelled by this commit being one
atomic functional update). -/
theorem c6_busy_frame (b : Block) (f1 f2 : ℚ) :
    (b.busy = true → calculate_trapezoid_for_block b f1 f2 = b) ∧
    (b.busy = false →
      ∃ au da ir fr,
        calculate_trapezoid_for_block b f1 f2 =
          { b with
            accelerate_until := au
            decelerate_after := da
            initial_rate := ir
            final_rate := fr }) := by
  constructor
  · intro h
    simp [calculate_trapezoid_for_block, h]
  · intro h
    simp only [calculate_trapezoid_for_block, h, eq_self_iff_true, if_true]
    exact ⟨_, _, _, _, rfl⟩

/-- Witness for C6 at the concrete busy block blkC6 with factors 1/2. -/
theorem c6_witness :
    blkC6.busy = true ∧ calculate_trapezoid_for_block blkC6 (1/2) (1/2) = blkC6 :=
  ⟨rfl, (c6_busy_frame blkC6 (1/2) (1/2)).1 rfl⟩

/-! ## Claim C5 -/

/-- Counterexample to claim C5 as stated.  The committed rates are claimed to
lie in [MIN_STEP_RATE, nominal_rate] for every block the stepper can see, but
the source clamps the local initial_rate only from below: at the block blkC5
with nominal_rate 100 < MIN_STEP_RATE = 120 and factors (1, 1) (both in
(0,1]) the committed initial_rate is 120 > nominal_rate, and the committed
final_rate is 100 < MIN_STEP_RATE. -/
theorem c5_counterexample :
    blkC5.nominal_rate = 100 ∧ blkC5.busy = false ∧ (0 : ℚ) < 1 ∧ (1 : ℚ) ≤ 1 ∧
    (calculate_trapezoid_for_block blkC5 1 1).initial_rate = 120 ∧
    ¬ (calculate_trapezoid_for_block blkC5 1 1).initial_rate ≤ blkC5.nominal_rate ∧
    (calculate_trapezoid_for_block blkC5 1 1).final_rate = 100 ∧
    ¬ (120 : ℤ) ≤ (calculate_trapezoid_for_block blkC5 1 1).final_rate := by
  with_unfolding_all decide

/-- Claim C5, amended.  Whenever calculate_trapezoid_for_block commits a
profile (block not busy) for factors in (0,1]: provided nominal_rate is at
least MIN_STEP_RATE = 120, both committed rates lie in
[MIN_STEP_RATE, nominal_rate]; a block whose nominal_rate equals
MIN_STEP_RATE gets initial_rate = final_rate = MIN_STEP_RATE for every such
factor pair; but when nominal_rate is below MIN_STEP_RATE the committed
initial_rate is MIN_STEP_RATE (exceeding nominal_rate) while final_rate is
clamped back down to nominal_rate (below MIN_STEP_RATE). -/
theorem c5_amended (b : Block) (f1 f2 : ℚ) (hf1 : 0 < f1) (hf11 : f1 ≤ 1) (hf2 : 0 < f2)
    (hf21 : f2 ≤ 1) (hb : b.busy = false) :
    (120 ≤ b.nominal_rate →
      120 ≤ (calculate_trapezoid_for_block b f1 f2).initial_rate ∧
      (calculate_trapezoid_for_block b f1 f2).initial_rate ≤ b.nominal_rate ∧
      120 ≤ (calculate_trapezoid_for_block b f1 f2).final_rate ∧
      (calculate_trapezoid_for_block b f1 f2).final_rate ≤ b.nominal_rate) ∧
    (b.nominal_rate = 120 →
      (calculate_trapezoid_for_block b f1 f2).initial_rate = 120 ∧
      (calculate_trapezoid_for_block b f1 f2).final_rate = 120) ∧
    (0 ≤ b.nominal_rate → b.nominal_rate < 120 →
      (calculate_trapezoid_for_block b f1 f2).initial_rate = 120 ∧
      (calculate_trapezoid_for_block b f1 f2).final_rate = b.nominal_rate) := by
  rw [lem_trap_initial_rate b f1 f2 hb, lem_trap_final_rate b f1 f2 hb]
  have key : ∀ f : ℚ, 0 < f → f ≤ 1 → (0 : ℤ) ≤ b.nominal_rate →
      ⌈(b.nominal_rate : ℚ) * f⌉ ≤ b.nominal_rate := by
    intro f h0 h1 hn
    calc ⌈(b.nominal_rate : ℚ) * f⌉ ≤ ⌈((b.nominal_rate : ℚ))⌉ := by
          apply Int.ceil_le_ceil
          exact mul_le_of_le_one_right (by exact_mod_cast hn) h1
      _ = b.nominal_rate := Int.ceil_intCast _
  refine ⟨?_, ?_, ?_⟩
  · intro hn
    have h0 : (0 : ℤ) ≤ b.nominal_rate := by omega
    have h1 := key f1 hf1 hf11 h0
    have h2 := key f2 hf2 hf21 h0
    refine ⟨?_, ?_, ?_, ?_⟩
    · split <;> omega
    · split <;> omega
    · split
      · omega
      · split <;> omega
    · split
      · omega
      · split <;> omega
  · intro hn
    have h0 : (0 : ℤ) ≤ b.nominal_rate := by omega
    have h1 := key f1 hf1 hf11 h0
    have h2 := key f2 hf2 hf21 h0
    refine ⟨?_, ?_⟩
    · split <;> omega
    · split
      · omega
      · split <;> omega
  · intro h0 hn
    have h1 := key f1 hf1 hf11 h0
    have h2 := key f2 hf2 hf21 h0
    refine ⟨?_, ?_⟩
    · split <;> omega
    · split
      · omega
      · split <;> omega

/-- Witness for C5 at the concrete block blkC5W (nominal rate 800) with
factors 1/2. -/
theorem c5_witness :
    (0 : ℚ) < 1/2 ∧ (1/2 : ℚ) ≤ 1 ∧ blkC5W.busy = false ∧ 120 ≤ blkC5W.nominal_rate ∧
    (120 ≤ (calculate_trapezoid_for_block blkC5W (1/2) (1/2)).initial_rate ∧
      (calculate_trapezoid_for_block blkC5W (1/2) (1/2)).initial_rate ≤ blkC5W.nominal_rate ∧
      120 ≤ (calculate_trapezoid_for_block blkC5W (1/2) (1/2)).final_rate ∧
      (calculate_trapezoid_for_block blkC5W (1/2) (1/2)).final_rate ≤ blkC5W.nominal_rate) :=
  ⟨by norm_num, by norm_num, rfl, by norm_num [blkC5W, blk0],
    (c5_amended blkC5W (1/2) (1/2) (by norm_num) (by norm_num) (by norm_num) (by norm_num)
        rfl).1
      (by norm_num [blkC5W, blk0])⟩

/-! ## Claim C2 -/

/-- Claim C2 (code bug).  On the XYZ-moving path the initial trapezoid is
claimed to be resolved with exit_factor = v_junction / v_nom.  In the source
the declaration float safe_speed on line 949 shadows the function-scope
safe_speed declared on line 935, which on this path is never assigned, so the
exit factor passed on line 996 is an indeterminate value divided by v_nom.
At the single 10 mm X move of the spec scenario (v_junction = 10,
v_nom = 50, nominal rate 4000), two different values of the indeterminate
local (2 and 10) produce different committed final rates (160 and 800), and
neither run is forced to agree with the claimed
ceil(nominal_rate * v_junction / v_nom) = 800. -/
theorem c2_uninitialized_exit_factor :
    pbl_vmax_junction cfgA sqrtfTab stA 10 0 0 0 0 50 = 10 ∧
    pbl_nominal_speed cfgA sqrtfTab stA 10 0 0 0 0 50 = 50 ∧
    (pbl_resolved_block cfgA sqrtfTab 5 stA 10 0 0 0 0 50 2).nominal_rate = 4000 ∧
    (pbl_resolved_block cfgA sqrtfTab 5 stA 10 0 0 0 0 50 2).final_rate = 160 ∧
    (pbl_resolved_block cfgA sqrtfTab 5 stA 10 0 0 0 0 50 10).final_rate = 800 ∧
    (pbl_resolved_block cfgA sqrtfTab 5 stA 10 0 0 0 0 50 2).final_rate ≠
      ⌈((pbl_resolved_block cfgA sqrtfTab 5 stA 10 0 0 0 0 50 2).nominal_rate : ℚ) *
          (pbl_vmax_junction cfgA sqrtfTab stA 10 0 0 0 0 50 /
            pbl_nominal_speed cfgA sqrtfTab stA 10 0 0 0 0 50)⌉ := by
  with_unfolding_all decide

/-! ## Claim C4 -/

theorem lem_pos_e_congr (cfg : Config) (ext : ℕ) {st st' : PState}
    (he : st.position_e = st'.position_e) (hl : st.last_extruder = st'.last_extruder) :
    pbl_pos_e cfg st ext = pbl_pos_e cfg st' ext := by
  unfold pbl_pos_e
  rw [he, hl]

theorem lem_sec_congr (cfg : Config) (x y z e : ℚ) (ext : ℕ) {st st' : PState}
    (hx : st.position_x = st'.position_x) (hy : st.position_y = st'.position_y)
    (hz : st.position_z = st'.position_z) (he : st.position_e = st'.position_e)
    (hl : st.last_extruder = st'.last_extruder) :
    pbl_sec cfg st x y z e ext = pbl_sec cfg st' x y z e ext := by
  unfold pbl_sec pbl_steps_x pbl_steps_y pbl_steps_z pbl_steps_e pbl_pos_e
  rw [hx, hy, hz, he, hl]

/-- Claim C4 (code bug).  plan_buffer_line never assigns last_extruder, so
the rescale of position[E] fires on every call after a tool change, not only
on the first.  Concretely (the spec's own swap scenario, extruder 0 at 100
steps/mm, extruder 1 at 140 steps/mm, position[E] = 1000): the first call on
extruder 1 rescales 1000 to 1400 and ends with position[E] = 1680 = the
quantized target, with last_extruder still 0; the second, identical call
should be a zero-length move, but the code rescales 1680 to 2352 again and
inserts another block, advancing the head a second time. -/
theorem c4_repeated_rescale :
    pbl_pos_e cfgSwap stSwap 1 = 1400 ∧
    (plan_buffer_line cfgSwap sqrtf0 5 stSwap 0 0 0 12 25 1 0).last_extruder = 0 ∧
    (plan_buffer_line cfgSwap sqrtf0 5 stSwap 0 0 0 12 25 1 0).position_e = 1680 ∧
    pbl_target_e cfgSwap 12 1 = 1680 ∧
    (plan_buffer_line cfgSwap sqrtf0 5 stSwap 0 0 0 12 25 1 0).block_buffer_head = 1 ∧
    pbl_pos_e cfgSwap (plan_buffer_line cfgSwap sqrtf0 5 stSwap 0 0 0 12 25 1 0) 1 = 2352 ∧
    (plan_buffer_line cfgSwap sqrtf0 5
        (plan_buffer_line cfgSwap sqrtf0 5 stSwap 0 0 0 12 25 1 0)
        0 0 0 12 25 1 0).block_buffer_head = 2 := by
  have hfull1 : stSwap.block_buffer_tail ≠ next_block_index stSwap.block_buffer_head := by
    decide
  have hacc1 : ¬ pbl_sec cfgSwap stSwap 0 0 0 12 1 ≤ dropsegments := by
    with_unfolding_all decide
  have hst1 := lem_pbl_accepted cfgSwap sqrtf0 5 stSwap 0 0 0 12 25 1 0 hfull1 hacc1
  set st1 := plan_buffer_line cfgSwap sqrtf0 5 stSwap 0 0 0 12 25 1 0 with hst1def
  have h1te : pbl_target_e cfgSwap 12 1 = 1680 := by with_unfolding_all decide
  have h1e : st1.position_e = 1680 := by
    rw [hst1]
    exact ((lem_recalc_fields _ _ _).2.2.2.2.2.1).trans h1te
  have h1l : st1.last_extruder = 0 := by
    rw [hst1]
    exact (lem_recalc_fields _ _ _).2.2.2.2.2.2.2.2.2.2.2
  have h1h : st1.block_buffer_head = 1 := by
    rw [hst1]
    exact (lem_recalc_fields _ _ _).1
  have h1t : st1.block_buffer_tail = 0 := by
    rw [hst1]
    exact (lem_recalc_fields _ _ _).2.1
  have h1x : st1.position_x = 0 := by
    rw [hst1]
    exact ((lem_recalc_fields _ _ _).2.2.1).trans (by with_unfolding_all decide)
  have h1y : st1.position_y = 0 := by
    rw [hst1]
    exact ((lem_recalc_fields _ _ _).2.2.2.1).trans (by with_unfolding_all decide)
  have h1z : st1.position_z = 0 := by
    rw [hst1]
    exact ((lem_recalc_fields _ _ _).2.2.2.2.1).trans (by with_unfolding_all decide)
  have hpe2 : pbl_pos_e cfgSwap st1 1 = 2352 := by
    rw [@lem_pos_e_congr cfgSwap 1 st1 { stSwap with position_e := 1680 } h1e h1l]
    with_unfolding_all decide
  have hsec2 : pbl_sec cfgSwap st1 0 0 0 12 1 = 672 := by
    rw [@lem_sec_congr cfgSwap 0 0 0 12 1 st1 { stSwap with position_e := 1680 }
      h1x h1y h1z h1e h1l]
    with_unfolding_all decide
  have hfull2 : st1.block_buffer_tail ≠ next_block_index st1.block_buffer_head := by
    rw [h1t, h1h]
    decide
  have hacc2 : ¬ pbl_sec cfgSwap st1 0 0 0 12 1 ≤ dropsegments := by
    rw [hsec2]
    decide
  have hst2 := lem_pbl_accepted cfgSwap sqrtf0 5 st1 0 0 0 12 25 1 0 hfull2 hacc2
  have h2h : (plan_buffer_line cfgSwap sqrtf0 5 st1 0 0 0 12 25 1 0).block_buffer_head = 2 := by
    rw [hst2]
    rw [(lem_recalc_fields _ _ _).1]
    show next_block_index st1.block_buffer_head = 2
    rw [h1h]
    decide
  exact ⟨by with_unfolding_all decide, h1l, h1e, h1te, h1h, hpe2, h2h⟩

/-! ## Claim C7 -/

/-- Counterexample to claim C7 as stated.  A discarded move is claimed to
leave the position register unmodified, but the extruder-change rescale of
position[E] runs before the drop check: at stSwap (position[E] = 1000 on
extruder 0) a zero-length call on extruder 1 is dropped (head does not
advance) yet position[E] has been rescaled to 1400. -/
theorem c7_counterexample :
    (plan_buffer_line cfgSwap sqrtf0 5 stSwap 0 0 0 10 25 1 0).block_buffer_head =
      stSwap.block_buffer_head ∧
    stSwap.position_e = 1000 ∧
    (plan_buffer_line cfgSwap sqrtf0 5 stSwap 0 0 0 10 25 1 0).position_e = 1400 := by
  rw [lem_pbl_dropped cfgSwap sqrtf0 5 stSwap 0 0 0 10 25 1 0 (by decide)
    (by with_unfolding_all decide)]
  exact ⟨rfl, rfl, by with_unfolding_all decide⟩

/-- Claim C7, amended.  With room in the buffer, plan_buffer_line discards a
move exactly when step_event_count is at most DROP_SEGMENTS: the head does
not advance (so no block is published) if and only if the move is
sub-threshold, an accepted move advances the head by one slot, and a dropped
move leaves the junction memory, last_extruder and the X, Y, Z positions
untouched, the only position-register effect being the extruder-change
rescale of position[E], which runs before the drop check. -/
theorem c7_amended (cfg : Config) (sqrtf : ℚ → ℚ) (mps : ℚ) (st : PState)
    (x y z e feed : ℚ) (ext : ℕ) (u : ℚ)
    (hfull : st.block_buffer_tail ≠ next_block_index st.block_buffer_head) :
    ((plan_buffer_line cfg sqrtf mps st x y z e feed ext u).block_buffer_head =
        st.block_buffer_head ↔ pbl_sec cfg st x y z e ext ≤ dropsegments) ∧
    (¬ pbl_sec cfg st x y z e ext ≤ dropsegments →
      (plan_buffer_line cfg sqrtf mps st x y z e feed ext u).block_buffer_head =
        next_block_index st.block_buffer_head) ∧
    (pbl_sec cfg st x y z e ext ≤ dropsegments →
      (plan_buffer_line cfg sqrtf mps st x y z e feed ext u).previous_speed_x =
          st.previous_speed_x ∧
      (plan_buffer_line cfg sqrtf mps st x y z e feed ext u).previous_speed_y =
          st.previous_speed_y ∧
      (plan_buffer_line cfg sqrtf mps st x y z e feed ext u).previous_speed_z =
          st.previous_speed_z ∧
      (plan_buffer_line cfg sqrtf mps st x y z e feed ext u).previous_speed_e =
          st.previous_speed_e ∧
      (plan_buffer_line cfg sqrtf mps st x y z e feed ext u).previous_nominal_speed =
          st.previous_nominal_speed ∧
      (plan_buffer_line cfg sqrtf mps st x y z e feed ext u).position_x = st.position_x ∧
      (plan_buffer_line cfg sqrtf mps st x y z e feed ext u).position_y = st.position_y ∧
      (plan_buffer_line cfg sqrtf mps st x y z e feed ext u).position_z = st.position_z ∧
      (plan_buffer_line cfg sqrtf mps st x y z e feed ext u).position_e =
          pbl_pos_e cfg st ext ∧
      (plan_buffer_line cfg sqrtf mps st x y z e feed ext u).last_extruder =
          st.last_extruder) := by
  by_cases hdrop : pbl_sec cfg st x y z e ext ≤ dropsegments
  · rw [lem_pbl_dropped cfg sqrtf mps st x y z e feed ext u hfull hdrop]
    exact ⟨⟨fun _ => hdrop, fun _ => rfl⟩, fun hc => absurd hdrop hc,
      fun _ => ⟨rfl, rfl, rfl, rfl, rfl, rfl, rfl, rfl, rfl, rfl⟩⟩
  · rw [lem_pbl_accepted cfg sqrtf mps st x y z e feed ext u hfull hdrop]
    refine ⟨⟨fun heq => ?_, fun hc => absurd hc hdrop⟩, fun _ => (lem_recalc_fields _ _ _).1,
      fun hc => absurd hc hdrop⟩
    rw [(lem_recalc_fields _ _ _).1] at heq
    exact absurd heq (lem_next_ne st.block_buffer_head)

/-- Witness for C7 at the concrete dropped zero-length call of the swap
scenario. -/
theorem c7_witness :
    ((plan_buffer_line cfgSwap sqrtf0 5 stSwap 0 0 0 10 25 1 0).block_buffer_head =
        stSwap.block_buffer_head ↔ pbl_sec cfgSwap stSwap 0 0 0 10 1 ≤ dropsegments) ∧
    (¬ pbl_sec cfgSwap stSwap 0 0 0 10 1 ≤ dropsegments →
      (plan_buffer_line cfgSwap sqrtf0 5 stSwap 0 0 0 10 25 1 0).block_buffer_head =
        next_block_index stSwap.block_buffer_head) ∧
    (pbl_sec cfgSwap stSwap 0 0 0 10 1 ≤ dropsegments →
      (plan_buffer_line cfgSwap sqrtf0 5 stSwap 0 0 0 10 25 1 0).previous_speed_x =
          stSwap.previous_speed_x ∧
      (plan_buffer_line cfgSwap sqrtf0 5 stSwap 0 0 0 10 25 1 0).previous_speed_y =
          stSwap.previous_speed_y ∧
      (plan_buffer_line cfgSwap sqrtf0 5 stSwap 0 0 0 10 25 1 0).previous_speed_z =
          stSwap.previous_speed_z ∧
      (plan_buffer_line cfgSwap sqrtf0 5 stSwap 0 0 0 10 25 1 0).previous_speed_e =
          stSwap.previous_speed_e ∧
      (plan_buffer_line cfgSwap sqrtf0 5 stSwap 0 0 0 10 25 1 0).previous_nominal_speed =
          stSwap.previous_nominal_speed ∧
      (plan_buffer_line cfgSwap sqrtf0 5 stSwap 0 0 0 10 25 1 0).position_x =
          stSwap.position_x ∧
      (plan_buffer_line cfgSwap sqrtf0 5 stSwap 0 0 0 10 25 1 0).position_y =
          stSwap.position_y ∧
      (plan_buffer_line cfgSwap sqrtf0 5 stSwap 0 0 0 10 25 1 0).position_z =
          stSwap.position_z ∧
      (plan_buffer_line cfgSwap sqrtf0 5 stSwap 0 0 0 10 25 1 0).position_e =
          pbl_pos_e cfgSwap stSwap 1 ∧
      (plan_buffer_line cfgSwap sqrtf0 5 stSwap 0 0 0 10 25 1 0).last_extruder =
          stSwap.last_extruder) :=
  c7_amended cfgSwap sqrtf0 5 stSwap 0 0 0 10 25 1 0 (by decide)

/-! ## Claim C9 -/

/-- Counterexample to claim C9 as stated.  The fan PWM latched for an
extruder is claimed to come from the most recent (newest) queued block that
carries a value for it.  In the source only the tail (oldest) block is ever
latched: at stFan (depth-2 queue, both blocks extruder 0, tail fan 100,
newest fan 200) the output for extruder 0 is 100, not the newest block's
200. -/
theorem c9_counterexample :
    stFan.block_buffer_head = 2 ∧ stFan.block_buffer_tail = 0 ∧
    (bget stFan.blocks 1).active_extruder = 0 ∧
    (bget stFan.blocks 1).fan_speed = 200 ∧
    (check_axes_activity cfgFan stFan).fan 0 = 100 ∧
    (check_axes_activity cfgFan stFan).fan 0 ≠ (bget stFan.blocks 1).fan_speed := by
  decide

/-- Claim C9, amended.  check_axes_activity outputs, for the tail block's own
active extruder, the fan_speed stored in the tail (oldest) block; every other
extruder receives the currently configured fanSpeed value, and when the
queue is empty every extruder receives the configured value. -/
theorem c9_amended (cfg : Config) (st : PState) (ext : ℕ) :
    (st.block_buffer_tail ≠ st.block_buffer_head →
      (check_axes_activity cfg st).fan ext =
        if ext = (bget st.blocks st.block_buffer_tail).active_extruder then
          (bget st.blocks st.block_buffer_tail).fan_speed
        else cfg.fanSpeed ext) ∧
    (st.block_buffer_tail = st.block_buffer_head →
      (check_axes_activity cfg st).fan ext = cfg.fanSpeed ext) := by
  constructor
  · intro h
    unfold check_axes_activity
    rw [if_pos h]
    simp [Function.update_apply]
  · intro h
    unfold check_axes_activity
    rw [if_neg (fun hc => hc h)]

/-- Witness for C9 at the concrete depth-2 queue stFan, extruder 0. -/
theorem c9_witness :
    stFan.block_buffer_tail ≠ stFan.block_buffer_head ∧
    (check_axes_activity cfgFan stFan).fan 0 =
      if 0 = (bget stFan.blocks stFan.block_buffer_tail).active_extruder then
        (bget stFan.blocks stFan.block_buffer_tail).fan_speed
      else cfgFan.fanSpeed 0 :=
  ⟨by decide, (c9_amended cfgFan stFan 0).1 (by decide)⟩

/-! ## Claim C8 -/

theorem lem_samecore_out {a b : Block} (h : SameCore a b) :
    a.millimeters = b.millimeters ∧ a.nominal_speed = b.nominal_speed ∧
      a.acceleration = b.acceleration ∧ a.nominal_length_flag = b.nominal_length_flag :=
  ⟨h.2.2.2.2.2.1, h.2.2.2.2.2.2.1, h.2.2.2.2.2.2.2.2.1, h.2.2.2.2.2.2.2.2.2.2.2.1⟩

/-- The published block of an accepted insertion keeps the prepared block's
millimeters, nominal_speed, acceleration and nominal_length_flag through the
initial trapezoid call and the whole recalculation. -/
theorem lem_pbl_published_core (cfg : Config) (sqrtf : ℚ → ℚ) (mps : ℚ) (st : PState)
    (x y z e feed : ℚ) (ext : ℕ) (u : ℚ)
    (hfull : st.block_buffer_tail ≠ next_block_index st.block_buffer_head)
    (hacc : ¬ pbl_sec cfg st x y z e ext ≤ dropsegments) :
    SameCore
      (bget (plan_buffer_line cfg sqrtf mps st x y z e feed ext u).blocks
        st.block_buffer_head)
      (pbl_prepared_block cfg sqrtf mps st x y z e ext feed) := by
  rw [lem_pbl_accepted cfg sqrtf mps st x y z e feed ext u hfull hacc]
  refine lem_samecore_trans (lem_recalc_core _ _ _ _) ?_
  dsimp only
  rw [lem_bget_bset_same]
  exact lem_trap_core (pbl_prepared_block cfg sqrtf mps st x y z e ext feed) _ _

/-- Counterexample to claim C8 as stated.  The nominal-length flag is claimed
to be set iff v_nom is at most v_allowable after every successful insertion
including pure-E ones, but the source only computes the flag inside the
XYZ-moving branch.  At a pure-E insertion (2 mm extrusion, retract
acceleration 2 mm/s^2, feed 2.5 mm/s, MINIMUM_PLANNER_SPEED 1) into a slot
whose stale flag is false, the published block has
v_allowable = sqrt(1^2 + 2*2*2) = 3 at least v_nom = 2.5, yet the flag stays
false. -/
theorem c8_counterexample :
    pbl_no_move cfgRet stA 0 0 0 ∧
    ¬ pbl_sec cfgRet stA 0 0 0 2 0 ≤ dropsegments ∧
    (bget (plan_buffer_line cfgRet sqrtf0 1 stA 0 0 0 2 (5/2) 0 0).blocks
        0).nominal_length_flag = false ∧
    (bget (plan_buffer_line cfgRet sqrtf0 1 stA 0 0 0 2 (5/2) 0 0).blocks
        0).nominal_speed = 5/2 ∧
    (bget (plan_buffer_line cfgRet sqrtf0 1 stA 0 0 0 2 (5/2) 0 0).blocks
        0).acceleration = 2 ∧
    (bget (plan_buffer_line cfgRet sqrtf0 1 stA 0 0 0 2 (5/2) 0 0).blocks
        0).millimeters = 2 ∧
    (0 : ℚ) ≤ 3 ∧ (3 : ℚ) * 3 = 1 * 1 + 2 * 2 * 2 ∧ (5/2 : ℚ) ≤ 3 := by
  have hnm : pbl_no_move cfgRet stA 0 0 0 := by with_unfolding_all decide
  have hacc : ¬ pbl_sec cfgRet stA 0 0 0 2 0 ≤ dropsegments := by with_unfolding_all decide
  have hb := lem_samecore_out
    (lem_pbl_published_core cfgRet sqrtf0 1 stA 0 0 0 2 (5/2) 0 0 (by decide) hacc)
  obtain ⟨hmm, hns, hac, hfl⟩ := hb
  rw [show stA.block_buffer_head = 0 from rfl] at hmm hns hac hfl
  refine ⟨hnm, hacc, ?_, ?_, ?_, ?_, by norm_num, by norm_num, by norm_num⟩
  · rw [hfl]
    show (pbl_prepared_block cfgRet sqrtf0 1 stA 0 0 0 2 0 (5/2)).nominal_length_flag = false
    simp only [pbl_prepared_block, if_pos hnm]
    rfl
  · rw [hns]
    show (pbl_prepared_block cfgRet sqrtf0 1 stA 0 0 0 2 0 (5/2)).nominal_speed = 5/2
    with_unfolding_all decide
  · rw [hac]
    show (pbl_prepared_block cfgRet sqrtf0 1 stA 0 0 0 2 0 (5/2)).acceleration = 2
    with_unfolding_all decide
  · rw [hmm]
    show (pbl_prepared_block cfgRet sqrtf0 1 stA 0 0 0 2 0 (5/2)).millimeters = 2
    with_unfolding_all decide

/-- Claim C8, amended.  After a successful insertion of an XYZ-moving block,
the published block's nominal_length_flag is true iff its nominal speed is at
most v_allowable = sqrt(2 * acceleration * millimeters + mps^2), where s is
pinned as that square root; a pure-E (no-move) insertion instead leaves the
slot's previous nominal_length_flag value unchanged, because the flag
computation sits inside the XYZ-moving branch. -/
theorem c8_amended (cfg : Config) (sqrtf : ℚ → ℚ) (mps : ℚ) (st : PState)
    (x y z e feed : ℚ) (ext : ℕ) (u : ℚ)
    (hfull : st.block_buffer_tail ≠ next_block_index st.block_buffer_head)
    (hacc : ¬ pbl_sec cfg st x y z e ext ≤ dropsegments) :
    (pbl_no_move cfg st x y z →
      (bget (plan_buffer_line cfg sqrtf mps st x y z e feed ext u).blocks
          st.block_buffer_head).nominal_length_flag =
        (bget st.blocks st.block_buffer_head).nominal_length_flag) ∧
    (¬ pbl_no_move cfg st x y z →
      ∀ s : ℚ, 0 ≤ s →
        s * s = mps * mps +
          2 * pbl_acceleration cfg sqrtf st x y z e ext *
            pbl_millimeters cfg sqrtf st x y z e ext →
        sqrtf (mps * mps -
            2 * -pbl_acceleration cfg sqrtf st x y z e ext *
              pbl_millimeters cfg sqrtf st x y z e ext) = s →
        ((bget (plan_buffer_line cfg sqrtf mps st x y z e feed ext u).blocks
            st.block_buffer_head).nominal_length_flag = true ↔
          (bget (plan_buffer_line cfg sqrtf mps st x y z e feed ext u).blocks
            st.block_buffer_head).nominal_speed ≤ s)) := by
  obtain ⟨hm2, hns, hac, hfl⟩ :=
    lem_samecore_out (lem_pbl_published_core cfg sqrtf mps st x y z e feed ext u hfull hacc)
  constructor
  · intro hnm
    rw [hfl]
    simp only [pbl_prepared_block, if_pos hnm]
  · intro hnm s hs hsq hsf
    rw [hfl, hns]
    simp only [pbl_prepared_block, if_neg hnm]
    rw [decide_eq_true_eq]
    unfold pbl_v_allowable max_allowable_speed
    rw [hsf]

/-- Witness for C8 at the single 10 mm X move of the spec scenario, with
s = 245 = sqrt(5^2 + 2 * 3000 * 10). -/
theorem c8_witness :
    ¬ pbl_no_move cfgA stA 10 0 0 ∧
    ((bget (plan_buffer_line cfgA sqrtfTab 5 stA 10 0 0 0 50 0 0).blocks
        stA.block_buffer_head).nominal_length_flag = true ↔
      (bget (plan_buffer_line cfgA sqrtfTab 5 stA 10 0 0 0 50 0 0).blocks
        stA.block_buffer_head).nominal_speed ≤ 245) := by
  have ha : pbl_acceleration cfgA sqrtfTab stA 10 0 0 0 0 = 3000 := by
    with_unfolding_all rfl
  have hm : pbl_millimeters cfgA sqrtfTab stA 10 0 0 0 0 = 10 := by
    with_unfolding_all rfl
  have hsx : pbl_steps_x cfgA stA 10 = 800 := by with_unfolding_all rfl
  have hsec : pbl_sec cfgA stA 10 0 0 0 0 = 800 := by with_unfolding_all rfl
  have hnm : ¬ pbl_no_move cfgA stA 10 0 0 := by
    intro hc
    obtain ⟨h1, _, _⟩ := hc
    rw [hsx] at h1
    revert h1
    decide
  have hacc : ¬ pbl_sec cfgA stA 10 0 0 0 0 ≤ dropsegments := by
    intro hc
    rw [hsec] at hc
    revert hc
    decide
  refine ⟨hnm,
    (c8_amended cfgA sqrtfTab 5 stA 10 0 0 0 50 0 0 (by decide) hacc).2 hnm 245
      (by norm_num) ?_ ?_⟩
  · rw [ha, hm]
    norm_num
  · rw [ha, hm]
    norm_num [sqrtfTab]

/-! ## Claim C10 -/

theorem lem_sf_step (s mf c : ℚ) (hs : 0 < s) (hmf : 0 < mf) :
    0 < (if |c| > mf then min s (mf / |c|) else s) := by
  split
  · rename_i h
    exact lt_min hs (div_pos hmf (lt_trans hmf h))
  · exact hs

theorem lem_speed_factor_pos (cfg : Config) (sqrtf : ℚ → ℚ) (st : PState) (x y z e : ℚ)
    (ext : ℕ) (feed : ℚ) (hfx : 0 < cfg.max_feedrate_x) (hfy : 0 < cfg.max_feedrate_y)
    (hfz : 0 < cfg.max_feedrate_z) (hfe : 0 < cfg.max_feedrate_e ext) :
    0 < pbl_speed_factor cfg sqrtf st x y z e ext feed := by
  unfold pbl_speed_factor
  exact lem_sf_step _ _ _
    (lem_sf_step _ _ _ (lem_sf_step _ _ _ (lem_sf_step _ _ _ one_pos hfx) hfy) hfz) hfe

theorem lem_feed_pos (cfg : Config) (st : PState) (e : ℚ) (ext : ℕ) (feed : ℚ)
    (hf : 0 < feed) (h1 : 0 < cfg.minimumfeedrate) (h2 : 0 < cfg.mintravelfeedrate) :
    0 < pbl_feed cfg st e ext feed := by
  unfold pbl_feed
  split <;> split <;> assumption

theorem lem_millimeters_pos (cfg : Config) (sqrtf : ℚ → ℚ) (st : PState) (x y z e : ℚ)
    (ext : ℕ) (hax : 0 < cfg.axis_steps_per_unit_x) (hay : 0 < cfg.axis_steps_per_unit_y)
    (haz : 0 < cfg.axis_steps_per_unit_z) (hae : 0 < cfg.axis_steps_per_unit_e ext)
    (hsq : ∀ q : ℚ, 0 < q → 0 < sqrtf q)
    (hacc : ¬ pbl_sec cfg st x y z e ext ≤ dropsegments) :
    0 < pbl_millimeters cfg sqrtf st x y z e ext := by
  unfold pbl_millimeters
  split
  · rename_i hnm
    obtain ⟨h1, h2, h3⟩ := hnm
    have hse : ¬ pbl_steps_e cfg st e ext ≤ dropsegments := by
      intro hc
      apply hacc
      unfold pbl_sec
      simp only [max_le_iff]
      exact ⟨h1, h2, h3, hc⟩
    have h6 : 6 ≤ pbl_steps_e cfg st e ext := by
      unfold dropsegments at hse
      omega
    have hprod : 600 ≤ |pbl_target_e cfg e ext - pbl_pos_e cfg st ext| * cfg.extrudemultiply := by
      unfold pbl_steps_e at h6
      omega
    have hde : pbl_target_e cfg e ext - pbl_pos_e cfg st ext ≠ 0 := by
      intro h0
      rw [h0, abs_zero, zero_mul] at hprod
      omega
    have hmult : 0 < cfg.extrudemultiply := by
      by_contra hm
      push_neg at hm
      have := mul_nonpos_of_nonneg_of_nonpos
        (abs_nonneg (pbl_target_e cfg e ext - pbl_pos_e cfg st ext)) hm
      omega
    have hne : pbl_delta_e_mm cfg st e ext ≠ 0 := by
      unfold pbl_delta_e_mm
      apply div_ne_zero ?_ (by norm_num)
      apply mul_ne_zero
      · exact div_ne_zero (Int.cast_ne_zero.mpr hde) (ne_of_gt hae)
      · exact_mod_cast ne_of_gt hmult
    exact abs_pos.mpr hne
  · rename_i hnm
    apply hsq
    have hor : ¬ pbl_steps_x cfg st x ≤ dropsegments ∨ ¬ pbl_steps_y cfg st y ≤ dropsegments ∨
        ¬ pbl_steps_z cfg st z ≤ dropsegments := by
      by_contra hc
      push_neg at hc
      exact hnm ⟨hc.1, hc.2.1, hc.2.2⟩
    have sq1 : ∀ a : ℚ, 0 ≤ a * a := fun a => mul_self_nonneg a
    rcases hor with h | h | h
    · have hne : pbl_target_x cfg x - st.position_x ≠ 0 := by
        unfold pbl_steps_x dropsegments at h
        intro h0
        rw [h0, abs_zero] at h
        omega
      have hdx : pbl_delta_x_mm cfg st x ≠ 0 := by
        unfold pbl_delta_x_mm
        exact div_ne_zero (Int.cast_ne_zero.mpr hne) (ne_of_gt hax)
      have hp := mul_self_pos.mpr hdx
      have := sq1 (pbl_delta_y_mm cfg st y)
      have := sq1 (pbl_delta_z_mm cfg st z)
      linarith
    · have hne : pbl_target_y cfg y - st.position_y ≠ 0 := by
        unfold pbl_steps_y dropsegments at h
        intro h0
        rw [h0, abs_zero] at h
        omega
      have hdy : pbl_delta_y_mm cfg st y ≠ 0 := by
        unfold pbl_delta_y_mm
        exact div_ne_zero (Int.cast_ne_zero.mpr hne) (ne_of_gt hay)
      have hp := mul_self_pos.mpr hdy
      have := sq1 (pbl_delta_x_mm cfg st x)
      have := sq1 (pbl_delta_z_mm cfg st z)
      linarith
    · have hne : pbl_target_z cfg z - st.position_z ≠ 0 := by
        unfold pbl_steps_z dropsegments at h
        intro h0
        rw [h0, abs_zero] at h
        omega
      have hdz : pbl_delta_z_mm cfg st z ≠ 0 := by
        unfold pbl_delta_z_mm
        exact div_ne_zero (Int.cast_ne_zero.mpr hne) (ne_of_gt haz)
      have hp := mul_self_pos.mpr hdz
      have := sq1 (pbl_delta_x_mm cfg st x)
      have := sq1 (pbl_delta_y_mm cfg st y)
      linarith

theorem lem_ns_pos (cfg : Config) (sqrtf : ℚ → ℚ) (st : PState) (x y z e : ℚ) (ext : ℕ)
    (feed : ℚ) (hax : 0 < cfg.axis_steps_per_unit_x) (hay : 0 < cfg.axis_steps_per_unit_y)
    (haz : 0 < cfg.axis_steps_per_unit_z) (hae : 0 < cfg.axis_steps_per_unit_e ext)
    (hfx : 0 < cfg.max_feedrate_x) (hfy : 0 < cfg.max_feedrate_y)
    (hfz : 0 < cfg.max_feedrate_z) (hfe : 0 < cfg.max_feedrate_e ext)
    (hfeed : 0 < feed) (hminf : 0 < cfg.minimumfeedrate) (hmint : 0 < cfg.mintravelfeedrate)
    (hsq : ∀ q : ℚ, 0 < q → 0 < sqrtf q)
    (hacc : ¬ pbl_sec cfg st x y z e ext ≤ dropsegments) :
    0 < pbl_nominal_speed cfg sqrtf st x y z e ext feed := by
  have hmm := lem_millimeters_pos cfg sqrtf st x y z e ext hax hay haz hae hsq hacc
  have hfp := lem_feed_pos cfg st e ext feed hfeed hminf hmint
  have hinv : 0 < pbl_inverse_second cfg sqrtf st x y z e ext feed := by
    unfold pbl_inverse_second
    exact mul_pos hfp (by rw [one_div]; exact inv_pos.mpr hmm)
  have hns0 : 0 < pbl_nominal_speed0 cfg sqrtf st x y z e ext feed := by
    unfold pbl_nominal_speed0
    exact mul_pos hmm hinv
  have hsf := lem_speed_factor_pos cfg sqrtf st x y z e ext feed hfx hfy hfz hfe
  unfold pbl_nominal_speed
  split
  · exact mul_pos hns0 hsf
  · exact hns0

/-- Claim C10 (confirmed).  With room in the buffer, a positive requested
feed rate, positive configured feed-rate floors, positive steps-per-mm and
positive per-axis feed-rate limits (and a square root that is positive on
positive arguments), any move plan_buffer_line actually publishes (the head
advanced) has nominal_speed strictly positive, so the divisions by
nominal_speed performed by planner_recalculate_trapezoids and by the
entry/exit factor computation at initial insertion never divide by zero. -/
theorem c10_nominal_speed_pos (cfg : Config) (sqrtf : ℚ → ℚ) (mps : ℚ) (st : PState)
    (x y z e feed : ℚ) (ext : ℕ) (u : ℚ)
    (hfull : st.block_buffer_tail ≠ next_block_index st.block_buffer_head)
    (hax : 0 < cfg.axis_steps_per_unit_x) (hay : 0 < cfg.axis_steps_per_unit_y)
    (haz : 0 < cfg.axis_steps_per_unit_z) (hae : 0 < cfg.axis_steps_per_unit_e ext)
    (hfx : 0 < cfg.max_feedrate_x) (hfy : 0 < cfg.max_feedrate_y)
    (hfz : 0 < cfg.max_feedrate_z) (hfe : 0 < cfg.max_feedrate_e ext)
    (hfeed : 0 < feed) (hminf : 0 < cfg.minimumfeedrate) (hmint : 0 < cfg.mintravelfeedrate)
    (hsq : ∀ q : ℚ, 0 < q → 0 < sqrtf q) :
    (plan_buffer_line cfg sqrtf mps st x y z e feed ext u).block_buffer_head ≠
        st.block_buffer_head →
      0 < (bget (plan_buffer_line cfg sqrtf mps st x y z e feed ext u).blocks
            st.block_buffer_head).nominal_speed := by
  intro hmove
  by_cases hacc : pbl_sec cfg st x y z e ext ≤ dropsegments
  · exfalso
    apply hmove
    rw [lem_pbl_dropped cfg sqrtf mps st x y z e feed ext u hfull hacc]
  · obtain ⟨-, hns, -, -⟩ :=
      lem_samecore_out (lem_pbl_published_core cfg sqrtf mps st x y z e feed ext u hfull hacc)
    rw [hns]
    show 0 < pbl_nominal_speed cfg sqrtf st x y z e ext feed
    exact lem_ns_pos cfg sqrtf st x y z e ext feed hax hay haz hae hfx hfy hfz hfe hfeed
      hminf hmint hsq hacc

/-- Witness for C10 at the single 10 mm X move with the everywhere-positive
square root stand-in. -/
theorem c10_witness :
    0 < (bget (plan_buffer_line cfgA sqrtfPos 5 stA 10 0 0 0 50 0 0).blocks
          stA.block_buffer_head).nominal_speed := by
  have hsec : pbl_sec cfgA stA 10 0 0 0 0 = 800 := by with_unfolding_all rfl
  have hacc : ¬ pbl_sec cfgA stA 10 0 0 0 0 ≤ dropsegments := by
    rw [hsec]
    decide
  have hmove : (plan_buffer_line cfgA sqrtfPos 5 stA 10 0 0 0 50 0 0).block_buffer_head ≠
      stA.block_buffer_head := by
    rw [lem_pbl_accepted cfgA sqrtfPos 5 stA 10 0 0 0 50 0 0 (by decide) hacc]
    rw [(lem_recalc_fields _ _ _).1]
    exact lem_next_ne stA.block_buffer_head
  exact c10_nominal_speed_pos cfgA sqrtfPos 5 stA 10 0 0 0 50 0 0 (by decide)
    (by norm_num [cfgA]) (by norm_num [cfgA]) (by norm_num [cfgA]) (by norm_num [cfgA])
    (by norm_num [cfgA]) (by norm_num [cfgA]) (by norm_num [cfgA]) (by norm_num [cfgA])
    (by norm_num) (by norm_num [cfgA]) (by norm_num [cfgA])
    (fun q hq => by unfold sqrtfPos; split <;> norm_num) hmove

/-! ## Claim C3 -/

/-- Counterexample to claim C3 as stated.  At a depth-3 queue (tail 0,
newest block 2) the block at index 1 lies strictly between the tail and the
newest block and is eligible for adjustment (its entry speed differs from
its maximal entry speed, which the kernel would install), yet
planner_reverse_pass changes nothing at all, because its guard requires a
depth greater than 3 before any work happens. -/
theorem c3_counterexample :
    movesplanned stRev = 3 ∧
    planner_reverse_pass sqrtf0 stRev = stRev ∧
    (bget stRev.blocks 1).entry_speed ≠ (bget stRev.blocks 1).max_entry_speed ∧
    bget (planner_reverse_pass_kernel sqrtf0 stRev.blocks (some 1) (some 2)) 1 ≠
      bget stRev.blocks 1 := by
  refine ⟨rfl, rfl, ?_, ?_⟩
  · decide
  · decide

theorem lem_prev_mod (a : ℕ) (ha : 1 ≤ a) :
    prev_block_index (a % 16) = (a - 1) % 16 := by
  unfold prev_block_index
  split
  · omega
  · omega

theorem lem_rev_loop_tail (sqrtf : ℚ → ℚ) (tl : ℕ) (fuel : ℕ) (b0 b1 : Option ℕ)
    (buf : Buf) : reverse_pass_loop sqrtf tl fuel tl b0 b1 buf = buf := by
  cases fuel with
  | zero => rfl
  | succ f => simp [reverse_pass_loop]

theorem lem_rev_loop_succ (sqrtf : ℚ → ℚ) (tl fuel idx : ℕ) (b0 b1 : Option ℕ)
    (buf : Buf) :
    reverse_pass_loop sqrtf tl (fuel + 1) idx b0 b1 buf =
      if idx = tl then buf
      else
        reverse_pass_loop sqrtf tl fuel (prev_block_index idx) (some (prev_block_index idx))
          b0 (planner_reverse_pass_kernel sqrtf buf b0 b1) := rfl

theorem lem_rev_loop_eq (sqrtf : ℚ → ℚ) (tl : ℕ) (htl : tl < 16) :
    ∀ (p fuel : ℕ) (buf : Buf), 1 ≤ p → p ≤ 15 → p ≤ fuel →
      reverse_pass_loop sqrtf tl fuel ((tl + p) % 16) (some ((tl + p) % 16))
          (some ((tl + (p + 1)) % 16)) buf =
        reverse_pass_adjust_positions sqrtf tl p buf := by
  intro p
  induction p with
  | zero => intro fuel buf h1 _ _; omega
  | succ q ih =>
    intro fuel buf _ hp15 hpf
    cases fuel with
    | zero => omega
    | succ f =>
      simp only [reverse_pass_loop]
      rw [if_neg (show ¬ (tl + (q + 1)) % 16 = tl by omega)]
      rw [lem_prev_mod (tl + (q + 1)) (by omega)]
      rw [show tl + (q + 1) - 1 = tl + q from by omega]
      simp only [reverse_pass_adjust_positions]
      cases q with
      | zero =>
        rw [show (tl + 0) % 16 = tl from by omega]
        exact lem_rev_loop_tail sqrtf tl f _ _ _
      | succ r =>
        rw [show tl + (r + 1 + 1) = tl + (r + 1 + 2) - 1 from by omega]
        exact ih f _ (by omega) (by omega) (by omega)

/-- Claim C3, amended.  The reverse pass equals the sequential application of
the reverse kernel to the blocks at offsets depth-5 down to 1 from the tail
(each cur read together with its queue successor): the tail block and the
four newest blocks are never adjusted, and in particular a queue of depth at
most 5 is left completely unchanged.  The depth is
(head + 16 - tail) mod 16. -/
theorem c3_amended (sqrtf : ℚ → ℚ) (st : PState) (hh : st.block_buffer_head < 16)
    (ht : st.block_buffer_tail < 16) :
    planner_reverse_pass sqrtf st =
      { st with
        blocks :=
          reverse_pass_adjust_positions sqrtf st.block_buffer_tail
            ((st.block_buffer_head + 16 - st.block_buffer_tail) % 16 - 5) st.blocks } ∧
    ((st.block_buffer_head + 16 - st.block_buffer_tail) % 16 ≤ 5 →
      planner_reverse_pass sqrtf st = st) := by
  have hmain : planner_reverse_pass sqrtf st =
      { st with
        blocks :=
          reverse_pass_adjust_positions sqrtf st.block_buffer_tail
            ((st.block_buffer_head + 16 - st.block_buffer_tail) % 16 - 5) st.blocks } := by
    unfold planner_reverse_pass
    by_cases hguard : (st.block_buffer_head + 16 - st.block_buffer_tail) % 16 > 3
    · rw [if_pos hguard]
      have hblocks :
          reverse_pass_loop sqrtf st.block_buffer_tail 16
              ((st.block_buffer_head + 16 - 3) % 16) none none st.blocks =
            reverse_pass_adjust_positions sqrtf st.block_buffer_tail
              ((st.block_buffer_head + 16 - st.block_buffer_tail) % 16 - 5) st.blocks := by
        set tl := st.block_buffer_tail with htl_def
        set d := (st.block_buffer_head + 16 - tl) % 16 with hd_def
        have e0 : (st.block_buffer_head + 16 - 3) % 16 = (tl + (d - 3)) % 16 := by omega
        rw [e0]
        rw [show (16 : ℕ) = 15 + 1 from rfl]
        rw [lem_rev_loop_succ]
        rw [if_neg (show ¬ (tl + (d - 3)) % 16 = tl by omega)]
        rw [lem_prev_mod (tl + (d - 3)) (by omega)]
        rw [show tl + (d - 3) - 1 = tl + (d - 4) from by omega]
        rw [show planner_reverse_pass_kernel sqrtf st.blocks none none = st.blocks from rfl]
        by_cases h4 : d = 4
        · rw [show tl + (d - 4) = tl from by omega]
          rw [Nat.mod_eq_of_lt ht]
          rw [lem_rev_loop_tail]
          rw [show d - 5 = 0 from by omega]
          rfl
        · rw [show (15 : ℕ) = 14 + 1 from rfl]
          rw [lem_rev_loop_succ]
          rw [if_neg (show ¬ (tl + (d - 4)) % 16 = tl by omega)]
          rw [lem_prev_mod (tl + (d - 4)) (by omega)]
          rw [show tl + (d - 4) - 1 = tl + (d - 5) from by omega]
          rw [show planner_reverse_pass_kernel sqrtf st.blocks
              (some ((tl + (d - 4)) % 16)) none = st.blocks from rfl]
          by_cases h5 : d = 5
          · rw [show tl + (d - 5) = tl from by omega]
            rw [Nat.mod_eq_of_lt ht]
            rw [lem_rev_loop_tail]
            rw [show d - 5 = 0 from by omega]
            rfl
          · rw [show tl + (d - 4) = tl + (d - 5 + 1) from by omega]
            exact lem_rev_loop_eq sqrtf tl ht (d - 5) 14 st.blocks (by omega) (by omega)
              (by omega)
      rw [hblocks]
    · rw [if_neg hguard]
      rw [show (st.block_buffer_head + 16 - st.block_buffer_tail) % 16 - 5 = 0 from by omega]
      rfl
  refine ⟨hmain, fun h5 => ?_⟩
  rw [hmain]
  rw [show (st.block_buffer_head + 16 - st.block_buffer_tail) % 16 - 5 = 0 from by omega]
  rfl

/-- Witness for C3 at the depth-7 queue stRev7 (the pass adjusts offsets 2
and 1 from the tail). -/
theorem c3_witness :
    (planner_reverse_pass sqrtf0 stRev7 =
      { stRev7 with
        blocks :=
          reverse_pass_adjust_positions sqrtf0 stRev7.block_buffer_tail
            ((stRev7.block_buffer_head + 16 - stRev7.block_buffer_tail) % 16 - 5)
            stRev7.blocks }) ∧
    ((stRev7.block_buffer_head + 16 - stRev7.block_buffer_tail) % 16 ≤ 5 →
      planner_reverse_pass sqrtf0 stRev7 = stRev7) :=
  c3_amended sqrtf0 stRev7 (by decide) (by decide)
